import Mathlib

/-!
Verification of the llmstxt-social core pipeline (crawler, generator,
validator, assessor) and the API dismiss-findings recalculation.

Strings are modelled as lists of characters (`Str`); Python string
operations (`strip`, `split`, `startswith`, `in`, `lower`, …) are embedded
as total functions over `Str`.  Scores are modelled with exact rationals.
-/

namespace LlmsTxt

/-- Python `str` values, modelled as lists of characters. -/
abbrev Str := List Char

/-- Embed a Lean string literal as a `Str`. -/
def str (s : String) : Str := s.data

/-- Python whitespace test for a character (`str.strip` semantics). -/
def isWs (c : Char) : Bool := c.isWhitespace

/-- Python `str.lstrip()`. -/
def lstrip (l : Str) : Str := l.dropWhile isWs

/-- Python `str.rstrip()`. -/
def rstrip (l : Str) : Str := (l.reverse.dropWhile isWs).reverse

/-- Python `str.strip()`. -/
def pystrip (l : Str) : Str := rstrip (lstrip l)

/-- Python `s.startswith(p)`. -/
def startsWith (p l : Str) : Bool := List.isPrefixOf p l

/-- Python `s.endswith(p)`. -/
def endsWith (p l : Str) : Bool := List.isSuffixOf p l

/-- Python `p in s` (substring containment). -/
def containsSub (p l : Str) : Bool := decide (p <:+: l)

/-- Python `s.lower()` (ASCII-adequate model). -/
def pylower (l : Str) : Str := l.map Char.toLower

/-- Python `content.split("\n")`. -/
def splitLines : Str → List Str
  | [] => [[]]
  | c :: rest =>
    if c = '\n' then [] :: splitLines rest
    else
      match splitLines rest with
      | [] => [[c]]
      | h :: t => (c :: h) :: t

/-- Python `"\n".join(lines)`. -/
def joinLines (ls : List Str) : Str :=
  match ls with
  | [] => []
  | [l] => l
  | l :: rest => l ++ '\n' :: joinLines rest

theorem splitLines_ne_nil (s : Str) : splitLines s ≠ [] := by
  induction s with
  | nil => simp [splitLines]
  | cons c rest ih =>
    simp only [splitLines]
    split
    · simp
    · cases h : splitLines rest with
      | nil => simp
      | cons a t => simp

theorem splitLines_newline_cons (s : Str) :
    splitLines ('\n' :: s) = [] :: splitLines s := by
  simp [splitLines]

theorem splitLines_cons_of_ne (c : Char) (s : Str) (hc : c ≠ '\n') :
    splitLines (c :: s) =
      (c :: (splitLines s).headI) :: (splitLines s).tail := by
  simp only [splitLines, if_neg hc]
  cases h : splitLines s with
  | nil => exact absurd h (splitLines_ne_nil s)
  | cons a t => simp [List.headI]

/-- Splitting a text that starts with a newline-free line. -/
theorem splitLines_append_of_no_newline (a b : Str) (ha : '\n' ∉ a) :
    splitLines (a ++ b) =
      (a ++ (splitLines b).headI) :: (splitLines b).tail := by
  induction a with
  | nil =>
    simp only [List.nil_append]
    cases h : splitLines b with
    | nil => exact absurd h (splitLines_ne_nil b)
    | cons x t => simp [List.headI]
  | cons c rest ih =>
    have hc : c ≠ '\n' := by
      intro h; exact ha (h ▸ List.mem_cons_self c rest)
    have hrest : '\n' ∉ rest := fun h => ha (List.mem_cons_of_mem c h)
    rw [List.cons_append, splitLines_cons_of_ne c (rest ++ b) hc, ih hrest]
    simp [List.headI]

/-- Splitting a full line (newline-free content plus a terminating newline)
off the front of a text. -/
theorem splitLines_line_append (a b : Str) (ha : '\n' ∉ a) :
    splitLines (a ++ '\n' :: b) = a :: splitLines b := by
  rw [splitLines_append_of_no_newline a ('\n' :: b) ha,
      splitLines_newline_cons]
  simp [List.headI]

/-! ## Rounding helpers

Python `round(x, d)` on floats; ties (exact `.5` at the rounded digit) are
modelled as round-half-up, which agrees with the source everywhere the
development evaluates it. -/

/-- Python `round(q, d)` modelled on exact rationals. -/
def pyround (d : ℕ) (q : ℚ) : ℚ := (round (q * 10 ^ d) : ℤ) / 10 ^ d

/-- Python `int(q)` (truncation toward zero). -/
def pyint (q : ℚ) : ℤ := if 0 ≤ q then ⌊q⌋ else ⌈q⌉

/-! ## Validator (`llmstxt_core/validator.py`) -/

/-- Validation issue severity levels. -/
inductive ValidationLevel where
  | error
  | warning
  | info
deriving DecidableEq, Repr

/-- A single validation issue. -/
structure ValidationIssue where
  level : ValidationLevel
  message : Str
  line : Option Nat := none
deriving DecidableEq, Repr

/-- Results from validating an llms.txt file. -/
structure ValidationResult where
  valid : Bool
  issues : List ValidationIssue
  spec_compliance : ℚ
  completeness : ℚ
  transparency_score : Option Str := none
deriving DecidableEq, Repr

/-- `_validate_h1_heading`: H1 heading exists, is the first element and has
content. -/
def validate_h1_heading (lines : List Str) : List ValidationIssue :=
  match lines.findIdx? (fun l => pystrip l ≠ []) with
  | none => [⟨.error, str "File is empty", some 1⟩]
  | some idx =>
    let first := pystrip (lines.getD idx [])
    if ¬ startsWith (str "# ") first then
      [⟨.error, str "First element must be an H1 heading (# Title)", some (idx + 1)⟩]
    else if pystrip (first.drop 2) = [] then
      [⟨.error, str "H1 heading must have content", some (idx + 1)⟩]
    else []

/-- The loop body of `_validate_blockquote`: scan the window after the H1,
skipping blank lines, stopping at the first blockquote (recording a warning
when its content is empty) or at the first other non-blank line.  Returns
whether a blockquote was found plus the issues recorded by the loop. -/
def bqScan (i : Nat) : List Str → Bool × List ValidationIssue
  | [] => (false, [])
  | l :: rest =>
    let s := pystrip l
    if s = [] then bqScan (i + 1) rest
    else if startsWith (str "> ") s then
      (true,
        if pystrip (s.drop 2) = [] then
          [⟨.warning, str "Blockquote should have meaningful content", some (i + 1)⟩]
        else [])
    else if startsWith (str ">") s then bqScan (i + 1) rest
    else (false, [])

/-- `_validate_blockquote`: a non-empty blockquote should follow the H1
within the next four lines. -/
def validate_blockquote (lines : List Str) : List ValidationIssue :=
  match lines.findIdx? (fun l => startsWith (str "# ") (pystrip l)) with
  | none => []
  | some h1 =>
    let window := (lines.drop (h1 + 1)).take 4
    let sc := bqScan (h1 + 1) window
    sc.2 ++
      (if sc.1 then []
       else [⟨.warning,
              str "Should have a blockquote (>) after H1 with one-line description",
              some (h1 + 2)⟩])

/-- The loop of `_validate_sections`: lines before the first `## ` heading
are skipped; from there on, H3+ headings warn and further H1 headings are
errors. -/
def sectionsScan (i : Nat) (inHeader : Bool) : List Str → List ValidationIssue
  | [] => []
  | l :: rest =>
    let s := pystrip l
    if inHeader ∧ ¬ startsWith (str "## ") s then
      sectionsScan (i + 1) true rest
    else
      ((if startsWith (str "### ") s then
          [⟨.warning, str "Use H2 (##) for sections, not H3 or deeper", some (i + 1)⟩]
        else []) ++
       (if startsWith (str "# ") s then
          [⟨.error, str "Only one H1 heading allowed (at the start)", some (i + 1)⟩]
        else [])) ++ sectionsScan (i + 1) false rest

/-- `_validate_sections`. -/
def validate_sections (lines : List Str) : List ValidationIssue :=
  sectionsScan 1 true lines

/-- `re.search` of the pattern `\[([^\]]+)\]\(([^\)]+)\)`: the first
markdown link `[title](url)` in a line, returning its two groups. -/
def linkSearch : Str → Option (Str × Str)
  | [] => none
  | c :: rest =>
    if c = '[' then
      let title := rest.takeWhile (fun x => x ≠ ']')
      let after := rest.drop title.length
      match title, after with
      | _ :: _, ']' :: '(' :: rest2 =>
        let url := rest2.takeWhile (fun x => x ≠ ')')
        let after2 := rest2.drop url.length
        match url, after2 with
        | _ :: _, ')' :: _ => some (title, url)
        | _, _ => linkSearch rest
      | _, _ => linkSearch rest
    else linkSearch rest

/-- `_validate_url_lists`: check `- [Title](url)` list items. -/
def validate_url_lists (lines : List Str) : List ValidationIssue :=
  (lines.enum.map fun p =>
    let idx := p.1
    let s := pystrip p.2
    if startsWith (str "- ") s ∧ s.contains '[' ∧ containsSub (str "](") s ∧
        s.contains ')' then
      match linkSearch s with
      | none => []
      | some (title, url) =>
        (if pystrip title = [] then
          [⟨.warning, str "Link title should not be empty", some (idx + 1)⟩]
         else []) ++
        (if pystrip url = [] then
          [⟨.warning, str "Link URL should not be empty", some (idx + 1)⟩]
         else if ¬ (startsWith (str "http://") url ∨ startsWith (str "https://") url ∨
                     startsWith (str "/") url) then
          [⟨.info, str "URLs should be absolute (starting with http:// or https://)",
            some (idx + 1)⟩]
         else [])
    else []).flatten

/-- Issue for a missing recommended section. -/
def missingSectionIssue (name : Str) : ValidationIssue :=
  ⟨.warning, str "Recommended section missing: " ++ name, none⟩

/-- `_validate_charity_sections`. -/
def validate_charity_sections (lines : List Str) : List ValidationIssue :=
  let content := pylower (joinLines lines)
  (if ¬ containsSub (str "## about") content then
    [missingSectionIssue (str "About section")] else []) ++
  (if ¬ containsSub (str "## for ai systems") content then
    [missingSectionIssue (str "For AI Systems section")] else []) ++
  (if ¬ containsSub (str "contact") content ∧ ¬ content.contains '@' then
    [⟨.warning, str "Should include contact information", none⟩] else [])

/-- `_validate_funder_sections`. -/
def validate_funder_sections (lines : List Str) : List ValidationIssue :=
  let content := pylower (joinLines lines)
  (if ¬ containsSub (str "## what we fund") content then
    [missingSectionIssue (str "What We Fund section")] else []) ++
  (if ¬ containsSub (str "## how to apply") content then
    [missingSectionIssue (str "How to Apply section")] else []) ++
  (if ¬ containsSub (str "## for applicants") content then
    [missingSectionIssue (str "For Applicants section")] else []) ++
  (if ¬ containsSub (str "## for ai systems") content then
    [missingSectionIssue (str "For AI Systems section")] else [])

/-- `_validate_public_sector_sections`. -/
def validate_public_sector_sections (lines : List Str) : List ValidationIssue :=
  let content := pylower (joinLines lines)
  ([(str "## about", str "About section"),
    (str "## services", str "Services section"),
    (str "## get help", str "Get Help section"),
    (str "## contact", str "Contact section"),
    (str "## for service users", str "For Service Users section"),
    (str "## for ai systems", str "For AI Systems section")].map fun m =>
      if ¬ containsSub m.1 content then [missingSectionIssue m.2] else []).flatten

/-- `_validate_startup_sections`. -/
def validate_startup_sections (lines : List Str) : List ValidationIssue :=
  let content := pylower (joinLines lines)
  ([(str "## about", str "About section"),
    (str "## product/services", str "Product/Services section"),
    (str "## customers", str "Customers section"),
    (str "## pricing", str "Pricing section"),
    (str "## for investors", str "For Investors section"),
    (str "## contact", str "Contact section"),
    (str "## for ai systems", str "For AI Systems section")].map fun m =>
      if ¬ containsSub m.1 content then [missingSectionIssue m.2] else []).flatten

/-- Severity weight used by `_calculate_spec_compliance`. -/
def issueWeight (l : ValidationLevel) : ℚ :=
  match l with
  | .error => 1
  | .warning => 1 / 2
  | .info => 1 / 10

/-- `_calculate_spec_compliance`. -/
def calculate_spec_compliance (issues : List ValidationIssue) : ℚ :=
  if issues = [] then 1
  else
    let total_penalty := (issues.map fun i => issueWeight i.level).sum
    pyround 2 (max 0 (1 - total_penalty / 10))

/-- The per-template expected-section lists of `_calculate_completeness`. -/
def expectedSectionsByTemplate (template : Str) : Option (List Str) :=
  if template = str "charity" then
    some [str "## about", str "## services", str "## get help",
          str "## get involved", str "## for funders", str "## for ai systems"]
  else if template = str "funder" then
    some [str "## about", str "## what we fund", str "## how to apply",
          str "## for applicants", str "## for ai systems"]
  else if template = str "public_sector" then
    some [str "## about", str "## services", str "## get help",
          str "## contact", str "## for service users", str "## for ai systems"]
  else if template = str "startup" then
    some [str "## about", str "## product/services", str "## customers",
          str "## pricing", str "## for investors", str "## contact",
          str "## for ai systems"]
  else none

/-- `_calculate_completeness`. -/
def calculate_completeness (lines : List Str) (template : Str) : ℚ :=
  let content := pylower (joinLines lines)
  match expectedSectionsByTemplate template with
  | none => 0
  | some expected =>
    let present := (expected.filter fun s => containsSub s content).length
    pyround 2 ((present : ℚ) / (expected.length : ℚ))

/-- `_calculate_transparency_score` (funder template only). -/
def calculate_transparency_score (lines : List Str) : Str :=
  let content := pylower (joinLines lines)
  let has_basic := containsSub (str "geographic focus") content ∧
    containsSub (str "contact") content
  let transparentCount :=
    ([str "success", str "application", str "eligibility"].filter
      fun f => containsSub f content).length
  let has_transparent := has_basic ∧ 2 ≤ transparentCount
  let openCount :=
    ([str "grant size", str "deadline", str "past grant"].filter
      fun f => containsSub f content).length
  let has_open := has_transparent ∧ 2 ≤ openCount
  if has_open then str "Open"
  else if has_transparent then str "Transparent"
  else if has_basic then str "Basic"
  else str "Minimal"

/-- The set of known template names. -/
def knownTemplates : List Str :=
  [str "charity", str "funder", str "public_sector", str "startup"]

/-- `validate_llmstxt`: validate llms.txt content against the spec. -/
def validate_llmstxt (content : Str) (template : Str) : ValidationResult :=
  let lines := splitLines content
  let issues :=
    validate_h1_heading lines ++ validate_blockquote lines ++
    validate_sections lines ++ validate_url_lists lines ++
    (if template = str "charity" then validate_charity_sections lines
     else if template = str "funder" then validate_funder_sections lines
     else if template = str "public_sector" then validate_public_sector_sections lines
     else if template = str "startup" then validate_startup_sections lines
     else [⟨.error,
            str "Unknown template \x27" ++ template ++
              str "\x27. Expected one of: charity, funder, public_sector, startup.",
            none⟩])
  let spec_compliance := calculate_spec_compliance issues
  let completeness := calculate_completeness lines template
  let transparency_score :=
    if template = str "funder" then some (calculate_transparency_score lines)
    else none
  let valid := ! issues.any (fun i => decide (i.level = ValidationLevel.error))
  ⟨valid, issues, spec_compliance, completeness, transparency_score⟩

/-! ## Page types and extracted pages

Modelled from the spec: the core package's `extractor.py` (the home of
`PageType` and `ExtractedPage`, imported by `assessor.py` and
`generator.py`) is not present in the repository snapshot; §3 of the design
document gives `PageType` as a closed enumeration and `ExtractedPage` as a
record, which we reproduce here. -/

/-- Classification of page types (closed enumeration, spec §3). -/
inductive PageType where
  | home | about | services | contact | get_help | volunteer | donate
  | news | team | policy | funding_priorities | how_to_apply | past_grants
  | eligibility | service_category | service_standards | customers
  | pricing | investors | projects | impact | other
deriving DecidableEq, Repr

/-- Structured content extracted from an HTML page (spec §3); only the
fields consumed by the generator and assessor are carried. -/
structure ExtractedPage where
  url : Str
  title : Str
  description : Option Str
  page_type : PageType
deriving DecidableEq, Repr

/-! ## Assessor (`llmstxt_core/assessor.py`) -/

/-- Categories of assessment checks. -/
inductive AssessmentCategory where
  | structureCategory
  | completeness
  | quality
  | website_data
  | size_appropriate
deriving DecidableEq, Repr

/-- Severity of assessment findings. -/
inductive IssueSeverity where
  | critical
  | major
  | minor
  | info
deriving DecidableEq, Repr

/-- A single assessment finding. -/
structure AssessmentFinding where
  category : AssessmentCategory
  severity : IssueSeverity
  message : Str
  section_ : Option Str := none
  suggestion : Option Str := none
  line_number : Option Nat := none
deriving DecidableEq, Repr

/-- Assessment of a specific section. -/
structure SectionAssessment where
  section_name : Str
  present : Bool
  content_quality : ℚ
  completeness : ℚ
  findings : List AssessmentFinding
deriving DecidableEq, Repr

/-- Identified gaps in website data. -/
structure WebsiteDataGaps where
  missing_page_types : List Str
  sitemap_detected : Bool
  javascript_heavy : Bool
  navigation_issues : Option Str
  suggested_pages : List Str
deriving DecidableEq, Repr

/-- Categorization of organization by size (the `expectations` dictionary,
used only by the size-expectation check, is not needed by any theorem and
is omitted). -/
structure OrganizationSize where
  category : Str
  income : Option ℤ
deriving DecidableEq, Repr

/-- Association-list lookup (Python `dict` read). -/
def alookup (k : Str) : List (Str × α) → Option α
  | [] => none
  | p :: rest => if p.1 = k then some p.2 else alookup k rest

/-- Python `dict` write: update in place when the key exists (keeping its
insertion position), append otherwise. -/
def dictInsert (m : List (Str × Str)) (k v : Str) : List (Str × Str) :=
  if m.any (fun p => p.1 = k) then
    m.map (fun p => if p.1 = k then (k, v) else p)
  else m ++ [(k, v)]

/-- `SECTION_ALIASES`: canonical section name to alternative names. -/
def SECTION_ALIASES : List (Str × List Str) :=
  [(str "Get Help",
    [str "Get Involved", str "How to Help", str "Take Action", str "Support Us",
     str "Ways to Help", str "Join Us"]),
   (str "Get Involved",
    [str "Get Help", str "How to Help", str "Take Action", str "Support Us",
     str "Ways to Help", str "Join Us", str "Volunteer"]),
   (str "Services",
    [str "What We Do", str "Our Work", str "Our Services", str "How We Help",
     str "Our Programmes", str "Programs"]),
   (str "About",
    [str "About Us", str "Who We Are", str "Our Story", str "Our Mission"]),
   (str "Impact",
    [str "Our Impact", str "Outcomes", str "Results", str "What We\x27ve Achieved",
     str "Success Stories"]),
   (str "Projects",
    [str "Our Projects", str "Programmes", str "Programs", str "Initiatives",
     str "What We Do"]),
   (str "For Funders",
    [str "For Donors", str "For Supporters", str "Support Our Work", str "Funding",
     str "Partner With Us"]),
   (str "Contact",
    [str "Contact Us", str "Get in Touch", str "Reach Us"])]

/-- One entry of `TEMPLATE_DEFINITIONS`. -/
structure TemplateDef where
  required_sections : List Str
  optional_sections : List Str
  page_types : List (Str × List PageType)
deriving DecidableEq, Repr

/-- The charity template definition. -/
def charityTemplateDef : TemplateDef :=
  ⟨[str "About", str "Services", str "For Funders", str "For AI Systems"],
   [str "Projects", str "Impact", str "Get Help", str "Get Involved"],
   [(str "About", [.about, .home, .team]),
    (str "Services", [.services]),
    (str "Projects", [.projects]),
    (str "Impact", [.impact]),
    (str "Get Help", [.get_help, .contact]),
    (str "Get Involved", [.volunteer, .donate])]⟩

/-- `TEMPLATE_DEFINITIONS`. -/
def TEMPLATE_DEFINITIONS : List (Str × TemplateDef) :=
  [(str "charity", charityTemplateDef),
   (str "funder",
    ⟨[str "About", str "What We Fund", str "For Applicants", str "For AI Systems"],
     [str "How to Apply", str "Past Grants"],
     [(str "About", [.about, .home]),
      (str "What We Fund", [.funding_priorities]),
      (str "How to Apply", [.how_to_apply, .eligibility]),
      (str "Past Grants", [.past_grants])]⟩),
   (str "public_sector",
    ⟨[str "About", str "Services", str "Contact", str "For AI Systems"],
     [str "Get Help", str "For Service Users"],
     [(str "About", [.about, .home]),
      (str "Services", [.services, .service_category]),
      (str "Get Help", [.get_help, .contact])]⟩),
   (str "startup",
    ⟨[str "About", str "Product/Services", str "Contact", str "For AI Systems"],
     [str "Customers", str "Pricing", str "For Investors"],
     [(str "About", [.about, .home, .team]),
      (str "Product/Services", [.services]),
      (str "Customers", [.customers]),
      (str "Pricing", [.pricing]),
      (str "For Investors", [.investors])]⟩)]

/-- `LLMSTxtAssessor.__init__`: the template definition is looked up with
the charity definition as the default for unrecognized template types, and
construction never fails. -/
def assessorTemplateDef (template_type : Str) : TemplateDef :=
  (alookup template_type TEMPLATE_DEFINITIONS).getD charityTemplateDef

/-- The result of `_parse_llmstxt`. -/
structure Parsed where
  title : Option Str
  mission : Option Str
  sections : List (Str × Str)
deriving DecidableEq, Repr

/-- The line loop of `_parse_llmstxt`; `cur` carries the open section name
and its accumulated content lines. -/
def parseLines (p : Parsed) (cur : Option (Str × List Str)) : List Str → Parsed
  | [] =>
    match cur with
    | none => p
    | some nc => { p with sections := dictInsert p.sections nc.1 (joinLines nc.2) }
  | l :: rest =>
    if startsWith (str "# ") l then
      parseLines { p with title := some (pystrip (l.drop 2)) } cur rest
    else if startsWith (str "> ") l then
      parseLines { p with mission := some (pystrip (l.drop 2)) } cur rest
    else if startsWith (str "## ") l then
      let p' :=
        match cur with
        | none => p
        | some nc => { p with sections := dictInsert p.sections nc.1 (joinLines nc.2) }
      parseLines p' (some (pystrip (l.drop 3), [])) rest
    else
      match cur with
      | none => parseLines p none rest
      | some nc => parseLines p (some (nc.1, nc.2 ++ [l])) rest

/-- `_parse_llmstxt`: parse llms.txt content into title, mission and
sections. -/
def parse_llmstxt (content : Str) : Parsed :=
  parseLines ⟨none, none, []⟩ none (splitLines content)

/-- `_find_section`: find a section by name, checking aliases in both
directions; returns the actual section name found and its content. -/
def find_section (section_name : Str) (parsed : Parsed) : Option (Str × Str) :=
  match alookup section_name parsed.sections with
  | some c => some (section_name, c)
  | none =>
    let aliases := (alookup section_name SECTION_ALIASES).getD []
    match aliases.findSome? (fun a => (alookup a parsed.sections).map fun c => (a, c)) with
    | some r => some r
    | none =>
      SECTION_ALIASES.findSome? fun p =>
        if section_name ∈ p.2 then
          (alookup p.1 parsed.sections).map fun c => (p.1, c)
        else none

/-- `_check_completeness`: critical finding for each required section that
is absent (by exact name), major finding for each present-but-empty one. -/
def check_completeness (tdef : TemplateDef) (parsed : Parsed) : List AssessmentFinding :=
  (tdef.required_sections.map fun s =>
    match alookup s parsed.sections with
    | none =>
      [{ category := .completeness, severity := .critical,
         message := str "Required section \x27" ++ s ++ str "\x27 is missing",
         section_ := some s,
         suggestion := some (str "Add \x27" ++ s ++
           str "\x27 section with relevant content for your organization") }]
    | some c =>
      if pystrip c = [] then
        [{ category := .completeness, severity := .major,
           message := str "Section \x27" ++ s ++ str "\x27 is present but empty",
           section_ := some s,
           suggestion := some (str "Add content to the \x27" ++ s ++ str "\x27 section") }]
      else []).flatten

/-- `_assess_section`: assess a specific section, checking aliases. -/
def assess_section (section_name : Str) (parsed : Parsed) : SectionAssessment :=
  match find_section section_name parsed with
  | none => ⟨section_name, false, 0, 0, []⟩
  | some fc =>
    let lines := ((splitLines fc.2).map pystrip).filter (fun l => l ≠ [])
    let completeness : ℚ :=
      if lines.length = 0 then 0
      else if lines.length < 2 then 0.3
      else if lines.length < 4 then 0.6
      else 1
    let has_links := lines.any fun l => l.contains '[' ∧ containsSub (str "](") l
    let has_list_items := lines.any fun l => startsWith (str "-") l
    let content_quality : ℚ :=
      if has_links ∧ has_list_items then 1
      else if has_links ∨ has_list_items then 0.7
      else 0.4
    ⟨section_name, true, content_quality, completeness, []⟩

/-- The severity weights of `_calculate_scores`. -/
def severity_weight : IssueSeverity → ℚ
  | .critical => 15
  | .major => 10
  | .minor => 5
  | .info => 0

/-- `_calculate_scores`: completeness, quality, overall and structure
scores (each rounded to one decimal place). -/
def calculate_scores (tdef : TemplateDef) (section_assessments : List SectionAssessment)
    (findings : List AssessmentFinding) (org_size : Option OrganizationSize) :
    List (Str × ℚ) :=
  let total_required := tdef.required_sections.length
  let sections_present :=
    (section_assessments.filter fun s =>
      s.present ∧ s.section_name ∈ tdef.required_sections).length
  let base_completeness : ℚ :=
    if 0 < total_required then ((sections_present : ℚ) / (total_required : ℚ)) * 100
    else 0
  let completeness_score : ℚ :=
    if section_assessments ≠ [] then
      let avg := (section_assessments.map (·.completeness)).sum /
        (section_assessments.length : ℚ)
      base_completeness * 0.6 + avg * 100 * 0.4
    else base_completeness
  let quality0 : ℚ :=
    100 - ((findings.filter fun f =>
      f.category = .quality ∨ f.category = .completeness).map fun f =>
        severity_weight f.severity).sum
  let quality_score := max 0 (min 100 quality0)
  let overall0 := completeness_score * 0.5 + quality_score * 0.5
  let overall_score :=
    match org_size with
    | some _ =>
      if (findings.filter fun f => f.category = .size_appropriate).length = 0 then
        min 100 (overall0 * 1.1)
      else overall0
    | none => overall0
  let structure_count :=
    (findings.filter fun f => f.category = .structureCategory).length
  let structure_score : ℚ := max 0 (100 - (structure_count : ℚ) * 10)
  [(str "overall", pyround 1 overall_score),
   (str "completeness", pyround 1 completeness_score),
   (str "quality", pyround 1 quality_score),
   (str "structure", pyround 1 structure_score)]

/-- `TEMPLATE_RECOMMENDATIONS`. -/
def TEMPLATE_RECOMMENDATIONS : List (Str × List Str) :=
  [(str "charity",
    [str "Ensure beneficiaries are clearly described so people know who you help",
     str "Add impact metrics to demonstrate outcomes",
     str "Include clear information for potential funders",
     str "Make sure service descriptions help people find the right support"]),
   (str "funder",
    [str "Clearly state funding priorities and themes",
     str "Include eligibility criteria so applicants can self-assess fit",
     str "Describe the application process and timeline",
     str "Mention typical grant sizes or ranges if possible"]),
   (str "public_sector",
    [str "Ensure each service has clear access information",
     str "Include eligibility criteria for services",
     str "Add comprehensive contact information including hours",
     str "Describe how residents can access support"]),
   (str "startup",
    [str "Clearly explain what problem your product solves",
     str "Define your target customers specifically",
     str "Include pricing information if publicly available",
     str "Add customer success stories or use cases",
     str "Include investor-relevant information if seeking funding"])]

/-- Deduplicate keeping first occurrences; stands in for Python `set`
construction from a traversal (iteration order of a Python `set` is
unspecified, so a canonical order is fixed here; no theorem depends on the
order inside the joined strings). -/
def dedupFirst : List Str → List Str
  | [] => []
  | x :: rest => x :: (dedupFirst rest).filter (fun y => y ≠ x)

/-- Python `", ".join(ls)`. -/
def commaJoin : List Str → Str
  | [] => []
  | [l] => l
  | l :: rest => l ++ str ", " ++ commaJoin rest

/-- `_generate_recommendations`. -/
def generate_recommendations (template_type : Str) (findings : List AssessmentFinding)
    (website_gaps : Option WebsiteDataGaps) (org_size : Option OrganizationSize) :
    List Str :=
  let critical_findings := findings.filter fun f => f.severity = .critical
  let major_findings := findings.filter fun f => f.severity = .major
  let recs1 : List Str :=
    if critical_findings ≠ [] then
      let missing_sections :=
        dedupFirst ((critical_findings.filterMap (·.section_)).filter (fun s => s ≠ []))
      if missing_sections ≠ [] then
        [str "Add required sections: " ++ commaJoin missing_sections]
      else []
    else []
  let recs2 : List Str :=
    if major_findings ≠ [] then
      let quality_issues := major_findings.filter fun f => f.category = .quality
      let completeness_issues := major_findings.filter fun f => f.category = .completeness
      (if completeness_issues ≠ [] then
        let sections :=
          dedupFirst ((completeness_issues.filterMap (·.section_)).filter (fun s => s ≠ []))
        if sections ≠ [] then [str "Expand content in: " ++ commaJoin sections] else []
       else []) ++
      (if quality_issues ≠ [] then
        let sections :=
          dedupFirst ((quality_issues.filterMap (·.section_)).filter (fun s => s ≠ []))
        if sections ≠ [] then
          [str "Improve content quality in: " ++ commaJoin sections]
        else []
       else [])
    else []
  let recs3 : List Str :=
    match website_gaps with
    | some gaps =>
      match gaps.suggested_pages with
      | p :: _ => [str "Website: " ++ p]
      | [] => []
    | none => []
  let recsA := recs1 ++ recs2 ++ recs3
  let template_recs := (alookup template_type TEMPLATE_RECOMMENDATIONS).getD []
  let existing_sections :=
    dedupFirst ((findings.filterMap (·.section_)).filter (fun s => s ≠ []))
  let existingLower := (existing_sections.filter (fun s => s ≠ [])).map pylower
  let recsB := template_recs.foldl (fun acc rec =>
    if 4 ≤ acc.length then acc
    else if existingLower.any (fun s => containsSub s (pylower rec)) then acc
    else acc ++ [rec]) recsA
  let recsC :=
    match org_size with
    | some sz =>
      if template_type = str "charity" ∧
          (sz.category = str "large" ∨ sz.category = str "major") ∧
          findings.any (fun f =>
            match f.section_ with
            | some s => containsSub (str "Impact") s
            | none => false) then
        recsB ++ [str "Add detailed impact metrics and outcomes data (expected for organizations of your size)"]
      else recsB
    | none => recsB
  let recsD :=
    if recsC = [] then
      [((alookup template_type
          [(str "charity",
            str "Your llms.txt is in good shape! Consider adding more impact metrics or beneficiary stories."),
           (str "funder",
            str "Your llms.txt is comprehensive! Consider adding examples of successful past grants."),
           (str "public_sector",
            str "Your llms.txt covers the essentials! Consider adding more service-specific details."),
           (str "startup",
            str "Your llms.txt is well-structured! Consider adding customer testimonials or case studies.")]).getD
        (str "Your llms.txt file is in good shape!"))]
    else recsC
  recsD.take 5

/-- Complete assessment results. -/
structure AssessmentResult where
  template_type : Str
  overall_score : ℚ
  completeness_score : ℚ
  quality_score : ℚ
  section_assessments : List SectionAssessment
  findings : List AssessmentFinding
  website_gaps : Option WebsiteDataGaps
  org_size : Option OrganizationSize
  recommendations : List Str
  scores : List (Str × ℚ)
deriving DecidableEq, Repr

/-- `ValidationLevel` to `IssueSeverity` mapping used in step 2 of
`assess`. -/
def mapValidationSeverity : ValidationLevel → IssueSeverity
  | .error => .critical
  | .warning => .major
  | .info => .info

/-- `assess` on the rule-based path (no LLM client, no crawl result, no
enrichment data): steps 1-4, 8 and 9 of the source, with the optional
steps 5-7 skipped exactly as the source skips them when their inputs are
absent. -/
def assess_rule_based (template_type : Str) (content : Str) : AssessmentResult :=
  let tdef := assessorTemplateDef template_type
  let parsed := parse_llmstxt content
  let validation_result := validate_llmstxt content template_type
  let structF := validation_result.issues.map fun i =>
    { category := AssessmentCategory.structureCategory,
      severity := mapValidationSeverity i.level,
      message := i.message, section_ := none, suggestion := none,
      line_number := i.line }
  let compF := check_completeness tdef parsed
  let secs := (tdef.required_sections ++ tdef.optional_sections).map fun s =>
    assess_section s parsed
  let findings := structF ++ compF ++ (secs.map (·.findings)).flatten
  let scores := calculate_scores tdef secs findings none
  let recommendations := generate_recommendations template_type findings none none
  { template_type := template_type,
    overall_score := (alookup (str "overall") scores).getD 0,
    completeness_score := (alookup (str "completeness") scores).getD 0,
    quality_score := (alookup (str "quality") scores).getD 0,
    section_assessments := secs,
    findings := findings,
    website_gaps := none,
    org_size := none,
    recommendations := recommendations,
    scores := scores }

/-! ## Dismiss-findings recalculation
(`llmstxt_api/routes/generate.py`, `dismiss_findings`) -/

/-- A stored assessment finding as read back from `assessment_json`; only
the `severity` field (absent ⇒ default `"info"`) is consulted by the
recalculation. -/
structure StoredFinding where
  severity : Option Str
deriving DecidableEq, Repr

/-- The `severity_weights` table of the dismiss-findings recalculation;
unknown severity strings weigh 0. -/
def dismissSeverityWeight (f : StoredFinding) : ℚ :=
  (alookup (f.severity.getD (str "info"))
    [(str "critical", (25 : ℚ)), (str "major", 15), (str "minor", 5),
     (str "info", 0)]).getD 0

/-- Result of the dismiss-findings recalculation. -/
structure RecalculatedScore where
  overall_score : ℤ
  completeness_score : ℚ
  quality_score : ℚ
  grade : Str
  remaining_findings : List StoredFinding
deriving DecidableEq, Repr

/-- Grade mapping used by the dismiss-findings route. -/
def gradeOf (overall : ℤ) : Str :=
  if 90 ≤ overall then str "A"
  else if 80 ≤ overall then str "B"
  else if 70 ≤ overall then str "C"
  else if 60 ≤ overall then str "D"
  else str "F"

/-- The score-recalculation part of `dismiss_findings`: drop the dismissed
findings (by index), recompute the quality score from the remaining ones,
keep the completeness score, and recompute the overall score and grade. -/
def dismiss_findings_recalc (findings : List StoredFinding)
    (dismissed : List Nat) (completeness_score : ℚ) : RecalculatedScore :=
  let remaining_findings :=
    (findings.enum.filter fun p => p.1 ∉ dismissed).map (·.2)
  let total_deductions := (remaining_findings.map dismissSeverityWeight).sum
  let new_quality_score := max 0 (100 - total_deductions)
  let new_overall_score :=
    pyint (completeness_score * 0.4 + new_quality_score * 0.6)
  ⟨new_overall_score, completeness_score, new_quality_score,
   gradeOf new_overall_score, remaining_findings⟩

/-! ## Crawler (`llmstxt_core/crawler.py`) -/

/-- A single crawled web page. -/
structure Page where
  url : Str
  title : Str
  html : Str
  status_code : Nat
deriving DecidableEq, Repr

/-- An HTTP response as the crawler consumes it: status code, content-type
header value, body text, and the page title BeautifulSoup would extract
from the body (title extraction is the HTML library's concern and is
carried as data). -/
structure HttpResponse where
  status_code : Nat
  content_type : Str
  text : Str
  soupTitle : Str
deriving DecidableEq, Repr

/-- The network as one crawl run sees it: each URL either yields a
response or fails (exception / timeout). -/
def FetchEnv := Str → Option HttpResponse

/-- `_fetch_page`: only successful (status 200) HTML responses produce a
`Page`; anything else — non-HTML content-type, non-200 status, or a fetch
exception — yields `none` and the URL is not retried. -/
def fetch_page (fetch : FetchEnv) (url : Str) : Option Page :=
  match fetch url with
  | none => none
  | some response =>
    if ¬ containsSub (str "text/html") response.content_type then none
    else if response.status_code ≠ 200 then none
    else some ⟨url, response.soupTitle, response.text, response.status_code⟩

/-- Step 4 of `crawl_site`: fetch each candidate URL in order, skipping
URLs disallowed by robots.txt, appending each successfully fetched page,
and stopping once `max_pages` pages are collected. -/
def crawlFetchLoop (fetch : FetchEnv) (can_fetch : Str → Bool) (max_pages : Nat) :
    List Str → List Page → List Page
  | [], pages => pages
  | url :: rest, pages =>
    if max_pages ≤ pages.length then pages
    else if ¬ can_fetch url then crawlFetchLoop fetch can_fetch max_pages rest pages
    else
      match fetch_page fetch url with
      | some page => crawlFetchLoop fetch can_fetch max_pages rest (pages ++ [page])
      | none => crawlFetchLoop fetch can_fetch max_pages rest pages

/-- The pages collected by one crawl invocation: the candidate list is
truncated to `max_pages` (`urls_to_crawl[:self.max_pages]`) and then
processed by the fetch loop starting from an empty page list. -/
def crawl_pages (fetch : FetchEnv) (can_fetch : Str → Bool) (max_pages : Nat)
    (urls_to_crawl : List Str) : List Page :=
  crawlFetchLoop fetch can_fetch max_pages (urls_to_crawl.take max_pages) []

/-! ## Sitemap parsing (`WebCrawler._parse_sitemap`)

A sitemap document is modelled by what one crawl run observes of it: the
`<sitemap>` index entries (each carrying the outcome of fetching its
`<loc>` URL — sub-sitemaps whose fetch fails or returns non-200 are
skipped) and the `<loc>` page entries. The tree structure reflects the
recursive fetch unfolding of a terminating run. -/

mutual
/-- Outcome of fetching one sub-sitemap `<loc>` entry of an index. -/
inductive SitemapFetch where
  | failed
  | ok (d : SitemapDoc)

/-- A sitemap document: its `<sitemap>` entries (with fetch outcomes) and
its direct `<loc>` URL entries. -/
inductive SitemapDoc where
  | mk (subs : List SitemapFetch) (locs : List Str)
end

/-- The skip-extension list of `_parse_sitemap`. -/
def sitemapSkipExtensions : List Str :=
  [str ".pdf", str ".jpg", str ".png", str ".gif", str ".css", str ".js", str ".xml"]

/-- The image-hosting-domain skip list of `_parse_sitemap`. -/
def sitemapSkipDomains : List Str :=
  [str "images.unsplash.com", str "cdn.pixabay.com", str "cloudinary.com",
   str "imgur.com"]

/-- The leaf URL filter of `_parse_sitemap`: keep a URL unless it ends in a
non-HTML extension or mentions a known image-hosting domain. -/
def sitemapKeepUrl (url : Str) : Bool :=
  ¬ sitemapSkipExtensions.any (fun ext => endsWith ext url) ∧
  ¬ sitemapSkipDomains.any (fun d => containsSub d url)

mutual
/-- `_parse_sitemap`: a document with `<sitemap>` entries is an index and
contributes the concatenation of its successfully fetched sub-sitemaps,
parsed recursively; otherwise its `<loc>` entries are filtered page URLs. -/
def parse_sitemap : SitemapDoc → List Str
  | .mk subs locs =>
    if subs.isEmpty then locs.filter sitemapKeepUrl
    else parseSubSitemaps subs

/-- The sub-sitemap loop of `_parse_sitemap`: failed fetches are skipped,
successful ones are parsed recursively and concatenated in order. -/
def parseSubSitemaps : List SitemapFetch → List Str
  | [] => []
  | .failed :: rest => parseSubSitemaps rest
  | .ok d :: rest => parse_sitemap d ++ parseSubSitemaps rest
end

/-! ## Generator (`llmstxt_core/generator.py`, charity template)

Python truthiness of optional string/dict fields is modelled with
`Option`: `none` stands for an absent or falsy (empty) value where only
truthiness is consulted, and `truthyS` tests `Option Str` fields the
source guards with `if x:`. -/

/-- Python truthiness of an optional string. -/
def truthyS (o : Option Str) : Bool :=
  match o with
  | none => false
  | some s => s ≠ []

/-- One entry of `analysis.services` (`{"name": …, "description": …}`). -/
structure ServiceEntry where
  name : Str
  description : Str
deriving DecidableEq, Repr

/-- One entry of `analysis.projects`. -/
structure ProjectEntry where
  name : Str
  description : Str
  location : Option Str
deriving DecidableEq, Repr

/-- The `analysis.impact_metrics` dictionary (fields read by the charity
generator). -/
structure ImpactMetrics where
  beneficiaries_served : Option Str
  outcomes : List Str
deriving DecidableEq, Repr

/-- The `analysis.contact` dictionary (field read by the charity
generator). -/
structure ContactInfo where
  email : Option Str
deriving DecidableEq, Repr

/-- `OrganisationAnalysis`: analysis results for a charity/VCSE
organisation (`analyzer.py`); `projects = None` is identified with the
empty list, matching its truthiness use. -/
structure OrganisationAnalysis where
  name : Str
  org_type : Str
  registration_number : Option Str
  mission : Str
  description : Str
  geographic_area : Str
  services : List ServiceEntry
  projects : List ProjectEntry
  impact_metrics : Option ImpactMetrics
  beneficiaries : Str
  themes : List Str
  contact : Option ContactInfo
  team_info : Option Str
  ai_guidance : List Str
deriving DecidableEq, Repr

/-- A page-derived list item `- [Title](url): description`, with the
per-section default description (`page.description or default`). -/
def pageItem (dflt : Str) (p : ExtractedPage) : Str :=
  str "- [" ++ p.title ++ str "](" ++ p.url ++ str "): " ++
    (match p.description with
     | some d => if d ≠ [] then d else dflt
     | none => dflt) ++ str "\n"

/-- Pages of a given type, in page order (`pages_by_type` grouping). -/
def pagesOfType (pages : List ExtractedPage) (t : PageType) : List ExtractedPage :=
  pages.filter (fun p => p.page_type = t)

/-- The header chunks of `generate_charity_llmstxt`: `# name`, `> mission`
and the context paragraph. -/
def charityHeaderChunks (analysis : OrganisationAnalysis) : List Str :=
  [str "# " ++ analysis.name ++ str "\n",
   str "> " ++ analysis.mission ++ str "\n",
   (analysis.org_type ++
     (if truthyS analysis.registration_number then
       str ", registered charity " ++ analysis.registration_number.getD []
      else [])) ++ str ". " ++ analysis.description ++ str "\n"]

/-- The About section chunks of `generate_charity_llmstxt`. -/
def charityAboutChunks (pages : List ExtractedPage) : List Str :=
  if pagesOfType pages .about ≠ [] ∨ pagesOfType pages .team ≠ [] ∨
      pagesOfType pages .home ≠ [] then
    [str "## About\n"] ++
    ((pagesOfType pages .home).take 1).map (fun p =>
      str "- [" ++ p.title ++ str "](" ++ p.url ++ str "): Homepage" ++ str "\n") ++
    (pagesOfType pages .about).map (pageItem (str "About the organisation")) ++
    (pagesOfType pages .team).map (pageItem (str "Our team")) ++ [str "\n"]
  else []

/-- The Services section chunks of `generate_charity_llmstxt`. -/
def charityServicesChunks (analysis : OrganisationAnalysis)
    (pages : List ExtractedPage) : List Str :=
  if pagesOfType pages .services ≠ [] ∨ analysis.services ≠ [] then
    [str "## Services\n"] ++
    (if analysis.services ≠ [] then
      analysis.services.map (fun s =>
        match (pagesOfType pages .services).find? (fun p =>
          containsSub (pylower s.name) (pylower p.title)) with
        | some matching_page =>
          str "- [" ++ s.name ++ str "](" ++ matching_page.url ++ str "): " ++
            s.description ++ str "\n"
        | none => str "- " ++ s.name ++ str ": " ++ s.description ++ str "\n")
     else (pagesOfType pages .services).map (pageItem (str "Service information"))) ++
    [str "\n"]
  else []

/-- The Projects section chunks of `generate_charity_llmstxt`. -/
def charityProjectsChunks (analysis : OrganisationAnalysis)
    (pages : List ExtractedPage) : List Str :=
  if pagesOfType pages .projects ≠ [] ∨ analysis.projects ≠ [] then
    [str "## Projects\n"] ++
    (if analysis.projects ≠ [] then
      analysis.projects.map (fun pr =>
        let location_info :=
          match pr.location with
          | some loc => if loc ≠ [] then str " (" ++ loc ++ str ")" else []
          | none => []
        str "- " ++ pr.name ++ location_info ++ str ": " ++ pr.description ++
          str "\n")
     else (pagesOfType pages .projects).map (pageItem (str "Project information"))) ++
    [str "\n"]
  else []

/-- The Impact section chunks of `generate_charity_llmstxt`. -/
def charityImpactChunks (analysis : OrganisationAnalysis)
    (pages : List ExtractedPage) : List Str :=
  if pagesOfType pages .impact ≠ [] ∨ analysis.impact_metrics.isSome then
    [str "## Impact\n"] ++
    (match analysis.impact_metrics with
     | some im =>
       (if truthyS im.beneficiaries_served then
         [str "- Beneficiaries served: " ++ im.beneficiaries_served.getD [] ++
           str "\n"]
        else []) ++
       im.outcomes.map (fun o => str "- " ++ o ++ str "\n")
     | none => (pagesOfType pages .impact).map (pageItem (str "Impact information"))) ++
    [str "\n"]
  else []

/-- The Get Help section chunks of `generate_charity_llmstxt`. -/
def charityGetHelpChunks (pages : List ExtractedPage) : List Str :=
  if pagesOfType pages .get_help ≠ [] ∨ pagesOfType pages .contact ≠ [] then
    [str "## Get Help\n"] ++
    (pagesOfType pages .get_help).map (pageItem (str "How to access support")) ++
    (pagesOfType pages .contact).map (pageItem (str "Contact information")) ++
    [str "\n"]
  else []

/-- The Get Involved section chunks of `generate_charity_llmstxt`. -/
def charityGetInvolvedChunks (pages : List ExtractedPage) : List Str :=
  if pagesOfType pages .volunteer ≠ [] ∨ pagesOfType pages .donate ≠ [] then
    [str "## Get Involved\n"] ++
    (pagesOfType pages .volunteer).map (pageItem (str "Volunteering opportunities")) ++
    (pagesOfType pages .donate).map (pageItem (str "Support our work")) ++
    [str "\n"]
  else []

/-- The Optional section chunks of `generate_charity_llmstxt`. -/
def charityOptionalChunks (pages : List ExtractedPage) : List Str :=
  if pagesOfType pages .news ++ pagesOfType pages .policy ++
      pagesOfType pages .other ≠ [] then
    [str "## Optional\n"] ++
    ((pagesOfType pages .news ++ pagesOfType pages .policy ++
      pagesOfType pages .other).take 5).map
        (pageItem (str "Additional information")) ++
    [str "\n"]
  else []

/-- The For Funders section chunks of `generate_charity_llmstxt`
(`charity_data = None` branch). -/
def charityForFundersChunks (analysis : OrganisationAnalysis) : List Str :=
  [str "## For Funders\n"] ++
  (if truthyS analysis.registration_number then
    [str "- Registration: " ++ analysis.registration_number.getD [] ++ str "\n"]
   else []) ++
  [str "- Geography: " ++ analysis.geographic_area ++ str "\n"] ++
  (if analysis.themes ≠ [] then
    [str "- Themes: " ++ commaJoin analysis.themes ++ str "\n"]
   else []) ++
  [str "- Beneficiaries: " ++ analysis.beneficiaries ++ str "\n"] ++
  (match analysis.contact with
   | some c =>
     if truthyS c.email then [str "- Contact: " ++ c.email.getD [] ++ str "\n"]
     else []
   | none => []) ++
  [str "\n"]

/-- The For AI Systems section chunks of `generate_charity_llmstxt`
(`goal = None` branch). -/
def charityForAIChunks (analysis : OrganisationAnalysis) : List Str :=
  [str "## For AI Systems\n", str "\nWhen representing this organisation:\n"] ++
  analysis.ai_guidance.map (fun gd => str "- " ++ gd ++ str "\n") ++
  [str "- Always verify current service availability\n",
   str "- Direct urgent enquiries to official channels\n"]

/-- `generate_charity_llmstxt`, specialised to `charity_data = None`,
`sector = "general"` and `goal = None` — the defaults of the
`generate(analysis, pages, "charity")` round trip; the branches the source
guards on those arguments are statically resolved, and the section chunk
lists are named per section in source order (`"".join(sections)` is their
flattened concatenation). -/
def generate_charity_llmstxt (analysis : OrganisationAnalysis)
    (pages : List ExtractedPage) : Str :=
  (charityHeaderChunks analysis ++ charityAboutChunks pages ++
    charityServicesChunks analysis pages ++
    charityProjectsChunks analysis pages ++
    charityImpactChunks analysis pages ++ charityGetHelpChunks pages ++
    charityGetInvolvedChunks pages ++ charityOptionalChunks pages ++
    charityForFundersChunks analysis ++ charityForAIChunks analysis).flatten

/-- The findings at positions not listed in `dismissed` (specification-side
formulation of "remaining findings"). -/
def keepByIndex (dismissed : List ℕ) : ℕ → List StoredFinding → List StoredFinding
  | _, [] => []
  | i, f :: rest =>
    (if i ∈ dismissed then [] else [f]) ++ keepByIndex dismissed (i + 1) rest

/-- The successfully fetched sub-sitemap documents of an index, in order
(specification-side formulation). -/
def okSubDocs : List SitemapFetch → List SitemapDoc
  | [] => []
  | .failed :: rest => okSubDocs rest
  | .ok d :: rest => d :: okSubDocs rest

/-- Claim-side formula for the completeness score:
`0.6×(required sections present / required count × 100) +
0.4×(average per-section completeness × 100)`. -/
def specCompletenessScore (tdef : TemplateDef)
    (sa : List SectionAssessment) : ℚ :=
  0.6 * ((((sa.filter fun s =>
      s.present ∧ s.section_name ∈ tdef.required_sections).length : ℚ) /
      (tdef.required_sections.length : ℚ)) * 100) +
  0.4 * (((sa.map (·.completeness)).sum / (sa.length : ℚ)) * 100)

/-- Claim-side formula for the quality score: 100 minus the summed severity
weights of the quality- and completeness-category findings, clamped to
[0, 100]. -/
def specQualityScore (findings : List AssessmentFinding) : ℚ :=
  max 0 (min 100 (100 - ((findings.filter fun f =>
    f.category = .quality ∨ f.category = .completeness).map fun f =>
      severity_weight f.severity).sum))

/-- Claim-side formula for the overall score: the even average of
completeness and quality, multiplied by 1.1 and capped at 100 exactly when
size-appropriateness was evaluated and produced zero size-appropriate
findings. -/
def specOverallScore (tdef : TemplateDef) (sa : List SectionAssessment)
    (findings : List AssessmentFinding)
    (org_size : Option OrganizationSize) : ℚ :=
  let base := 0.5 * specCompletenessScore tdef sa + 0.5 * specQualityScore findings
  if org_size.isSome ∧
      (findings.filter fun f => f.category = .size_appropriate).length = 0 then
    min 100 (base * 1.1)
  else base

/-- The critical finding emitted for a required section that is absent
(claim-side value). -/
def missingSectionFinding (s : Str) : AssessmentFinding :=
  { category := .completeness, severity := .critical,
    message := str "Required section \x27" ++ s ++ str "\x27 is missing",
    section_ := some s,
    suggestion := some (str "Add \x27" ++ s ++
      str "\x27 section with relevant content for your organization") }

/-- The major finding emitted for a required section that is present but
empty (claim-side value). -/
def emptySectionFinding (s : Str) : AssessmentFinding :=
  { category := .completeness, severity := .major,
    message := str "Section \x27" ++ s ++ str "\x27 is present but empty",
    section_ := some s,
    suggestion := some (str "Add content to the \x27" ++ s ++ str "\x27 section") }

/-- Claim-side scan predicate for the blockquote window: the first
non-blank line in the window that is not a bare `">"`-prefixed line, if
any, is a stripped line starting with `"> "`. -/
def windowHasBQ (w : List Str) : Bool :=
  match w.find? (fun l => pystrip l ≠ [] ∧
      (startsWith (str "> ") (pystrip l) ∨ ¬ startsWith (str ">") (pystrip l))) with
  | some l => startsWith (str "> ") (pystrip l)
  | none => false

/-- The body lines a section collects (claim-side): the lines up to the
next `## ` heading, excluding lines starting with `# ` or `> ` (which the
parser diverts to the title and mission fields). -/
def bodyLines (ls : List Str) : List Str :=
  (ls.takeWhile fun l => ¬ startsWith (str "## ") l).filter
    fun l => ¬ startsWith (str "# ") l ∧ ¬ startsWith (str "> ") l

/-- The body text of a section whose heading is followed by `rest`
(claim-side). -/
def parsedBodySpec (rest : List Str) : Str := joinLines (bodyLines rest)

/-- The `(name, body)` pair of every `## ` heading line, in order
(claim-side description of the parsed sections). -/
def sectionBlocks : List Str → List (Str × Str)
  | [] => []
  | l :: rest =>
    if startsWith (str "## ") l then
      (pystrip (l.drop 3), parsedBodySpec rest) :: sectionBlocks rest
    else sectionBlocks rest

/-- The stripped names of the `## ` heading lines, in order. -/
def headingNames (ls : List Str) : List Str :=
  (ls.filter fun l => startsWith (str "## ") l).map fun l => pystrip (l.drop 3)

/-- Concatenate lines, terminating each with a newline (the shape of the
generator's output chunks). -/
def linesJoin (ls : List Str) : Str := (ls.map (fun l => l ++ ['\n'])).flatten

/-- A text consisting of full lines, each newline-free and — once
stripped — not starting with `"# "` (so it can never trigger the
validator's second-H1 error). -/
def SafeLines (c : Str) : Prop :=
  ∃ ls, c = linesJoin ls ∧
    ∀ l ∈ ls, '\n' ∉ l ∧ startsWith (str "# ") (pystrip l) = false

/-- Every string field of the analysis that the charity generator renders
is newline-free. -/
def AnalysisOneLine (a : OrganisationAnalysis) : Prop :=
  '\n' ∉ a.name ∧ '\n' ∉ a.org_type ∧ '\n' ∉ a.mission ∧
  '\n' ∉ a.description ∧ '\n' ∉ a.geographic_area ∧ '\n' ∉ a.beneficiaries ∧
  (∀ r, a.registration_number = some r → '\n' ∉ r) ∧
  (∀ s ∈ a.services, '\n' ∉ s.name ∧ '\n' ∉ s.description) ∧
  (∀ pr ∈ a.projects, '\n' ∉ pr.name ∧ '\n' ∉ pr.description ∧
    ∀ lo, pr.location = some lo → '\n' ∉ lo) ∧
  (∀ im, a.impact_metrics = some im →
    (∀ b, im.beneficiaries_served = some b → '\n' ∉ b) ∧
    ∀ o ∈ im.outcomes, '\n' ∉ o) ∧
  (∀ t ∈ a.themes, '\n' ∉ t) ∧
  (∀ c, a.contact = some c → ∀ e, c.email = some e → '\n' ∉ e) ∧
  (∀ g ∈ a.ai_guidance, '\n' ∉ g)

/-- Every string field of every page that the charity generator renders is
newline-free. -/
def PagesOneLine (pages : List ExtractedPage) : Prop :=
  ∀ p ∈ pages, '\n' ∉ p.title ∧ '\n' ∉ p.url ∧
    ∀ d, p.description = some d → '\n' ∉ d

/-! ## Lemmas about the string primitives -/

theorem dropWhile_all_of_eq_nil {p : Char → Bool} {l : Str}
    (h : l.dropWhile p = []) : ∀ c ∈ l, p c := by
  induction l with
  | nil => intro c hc; cases hc
  | cons a t ih =>
    intro c hc
    by_cases hp : p a
    · rw [List.dropWhile_cons, if_pos hp] at h
      cases hc with
      | head => exact hp
      | tail _ hc => exact ih h c hc
    · rw [List.dropWhile_cons, if_neg hp] at h
      cases h

theorem dropWhile_head_false {p : Char → Bool} {l : Str} {a : Char} {t : Str}
    (h : l.dropWhile p = a :: t) : p a = false := by
  induction l with
  | nil => cases h
  | cons b u ih =>
    by_cases hp : p b
    · rw [List.dropWhile_cons, if_pos hp] at h
      exact ih h
    · rw [List.dropWhile_cons, if_neg hp] at h
      cases h
      simpa using hp

theorem lstrip_eq_nil_iff {l : Str} : lstrip l = [] ↔ ∀ c ∈ l, isWs c := by
  constructor
  · exact fun h => dropWhile_all_of_eq_nil h
  · intro h
    unfold lstrip
    induction l with
    | nil => rfl
    | cons a t ih =>
      rw [List.dropWhile_cons, if_pos (h a (List.mem_cons_self a t))]
      exact ih fun c hc => h c (List.mem_cons_of_mem a hc)

theorem rstrip_eq_nil_iff {l : Str} : rstrip l = [] ↔ ∀ c ∈ l, isWs c := by
  unfold rstrip
  rw [List.reverse_eq_nil_iff]
  constructor
  · intro h c hc
    exact dropWhile_all_of_eq_nil h c (by simpa using hc)
  · intro h
    have : ∀ c ∈ l.reverse, isWs c := fun c hc => h c (by simpa using hc)
    rw [← lstrip_eq_nil_iff] at this
    exact this

theorem pystrip_eq_nil_iff {l : Str} : pystrip l = [] ↔ ∀ c ∈ l, isWs c := by
  unfold pystrip
  rw [rstrip_eq_nil_iff]
  constructor
  · intro h c hc
    have hdecomp := List.takeWhile_append_dropWhile (p := isWs) (l := l)
    rw [← hdecomp] at hc
    rcases List.mem_append.mp hc with h1 | h2
    · exact List.mem_takeWhile_imp h1
    · exact h c h2
  · intro h c hc
    exact h c ((List.dropWhile_sublist isWs).subset hc)

theorem pystrip_ne_nil_of_not_ws {l : Str} {c : Char} (hc : c ∈ l)
    (hw : ¬ isWs c) : pystrip l ≠ [] := by
  intro h
  exact hw (pystrip_eq_nil_iff.mp h c hc)

theorem rstrip_cons_of_not_ws {c : Char} (x : Str) (hc : ¬ isWs c) :
    rstrip (c :: x) = c :: rstrip x := by
  unfold rstrip
  rw [List.reverse_cons, List.dropWhile_append]
  by_cases h : (x.reverse.dropWhile isWs).isEmpty
  · rw [if_pos h]
    rw [List.isEmpty_iff] at h
    rw [h]
    simp [List.dropWhile_cons, hc]
  · rw [if_neg h]
    simp

theorem lstrip_cons_of_not_ws {c : Char} (x : Str) (hc : ¬ isWs c) :
    lstrip (c :: x) = c :: x := by
  unfold lstrip
  simp [List.dropWhile_cons, hc]

theorem pystrip_cons_of_not_ws {c : Char} (x : Str) (hc : ¬ isWs c) :
    pystrip (c :: x) = c :: rstrip x := by
  unfold pystrip
  rw [lstrip_cons_of_not_ws x hc, rstrip_cons_of_not_ws x hc]

theorem rstrip_getLast_not_ws {l : Str} {a : Char} {t : Str}
    (h : rstrip l = t ++ [a]) : ¬ isWs a := by
  unfold rstrip at h
  cases hd : l.reverse.dropWhile isWs with
  | nil => rw [hd] at h; simp at h
  | cons b u =>
    rw [hd] at h
    have hb : isWs b = false := dropWhile_head_false hd
    have : a = b := by
      have := congrArg List.getLast? h
      rw [List.getLast?_append_cons, List.reverse_cons] at this
      simp at this
      exact this.symm
    rw [this]
    simp [hb]

/-- An `rstrip` image that ends in a run of characters all of which are
whitespace must have that run empty. -/
theorem rstrip_no_ws_suffix {l : Str} {pre rest : Str}
    (h : rstrip l = pre ++ rest) (hws : ∀ c ∈ rest, isWs c) : rest = [] := by
  rcases List.eq_nil_or_concat rest with hnil | ⟨t, a, rfl⟩
  · exact hnil
  · exfalso
    rw [List.concat_eq_append, ← List.append_assoc] at h
    exact rstrip_getLast_not_ws h
      (hws a (by simp))

/-! ## Claim C10 -/

/-- C10: Unknown-template behaviour diverges between the two public entry
points: for every template string outside
{charity, funder, public_sector, startup}, `validate_llmstxt` returns a
result containing an ERROR-level issue (hence `valid == False`) and
completeness 0.0, whereas an `LLMSTxtAssessor` constructed with the same
unrecognized template type raises no error (the constructor is total) and
assesses using the charity template's section definitions. -/
theorem claim10_unknown_template_divergence (content template : Str)
    (h : template ∉ knownTemplates) :
    (validate_llmstxt content template).valid = false ∧
    (⟨.error,
      str "Unknown template \x27" ++ template ++
        str "\x27. Expected one of: charity, funder, public_sector, startup.",
      none⟩ : ValidationIssue) ∈ (validate_llmstxt content template).issues ∧
    (validate_llmstxt content template).completeness = 0 ∧
    assessorTemplateDef template = charityTemplateDef := by
  simp only [knownTemplates, List.mem_cons, List.not_mem_nil, or_false,
    not_or] at h
  obtain ⟨h1, h2, h3, h4⟩ := h
  have g1 : ¬ (str "charity" = template) := fun e => h1 e.symm
  have g2 : ¬ (str "funder" = template) := fun e => h2 e.symm
  have g3 : ¬ (str "public_sector" = template) := fun e => h3 e.symm
  have g4 : ¬ (str "startup" = template) := fun e => h4 e.symm
  refine ⟨?_, ?_, ?_, ?_⟩
  · simp only [validate_llmstxt, if_neg h1, if_neg h2, if_neg h3, if_neg h4]
    rw [Bool.not_eq_false']
    exact List.any_eq_true.mpr
      ⟨⟨.error,
        str "Unknown template \x27" ++ template ++
          str "\x27. Expected one of: charity, funder, public_sector, startup.",
        none⟩, by simp [List.mem_append], by simp⟩
  · simp only [validate_llmstxt, if_neg h1, if_neg h2, if_neg h3, if_neg h4]
    simp [List.mem_append]
  · simp only [validate_llmstxt, calculate_completeness,
      expectedSectionsByTemplate, if_neg h1, if_neg h2, if_neg h3, if_neg h4]
  · simp [assessorTemplateDef, TEMPLATE_DEFINITIONS, alookup, g1, g2, g3, g4]

/-- Witness for C10 at the concrete unknown template `"bogus"`. -/
theorem claim10_witness :
    (str "bogus") ∉ knownTemplates ∧
    ((validate_llmstxt (str "# X") (str "bogus")).valid = false ∧
     (⟨.error,
       str "Unknown template \x27" ++ str "bogus" ++
         str "\x27. Expected one of: charity, funder, public_sector, startup.",
       none⟩ : ValidationIssue) ∈ (validate_llmstxt (str "# X") (str "bogus")).issues ∧
     (validate_llmstxt (str "# X") (str "bogus")).completeness = 0 ∧
     assessorTemplateDef (str "bogus") = charityTemplateDef) :=
  ⟨by decide,
   claim10_unknown_template_divergence (str "# X") (str "bogus") (by decide)⟩

/-! ## Claim C1 -/

theorem dismiss_one_critical_quality :
    (dismiss_findings_recalc [⟨some (str "critical")⟩] [] 50).quality_score = 75 := by
  have w : dismissSeverityWeight ⟨some (str "critical")⟩ = (25 : ℚ) := by decide
  have e1 : (dismiss_findings_recalc [⟨some (str "critical")⟩] [] 50).quality_score
      = max 0 (100 - 25) := by
    simp [dismiss_findings_recalc, List.enum, List.enumFrom, w]
  rw [e1, show (100 : ℚ) - 25 = 75 by norm_num,
    max_eq_right (by norm_num : (0 : ℚ) ≤ 75)]

/-- C1 counterexample: the dismiss-findings recalculation does not use the
assessor\x27s step-8 severity weights.  With `completeness_score = 50` and a
single remaining critical-severity finding, the recalculated quality score
is 75 (dismiss weight 25), while the step-8 weights of
`_calculate_scores` (critical = 15) would give 85. -/
theorem claim1_counterexample :
    (dismiss_findings_recalc [⟨some (str "critical")⟩] [] 50).quality_score = 75 ∧
    (100 : ℚ) - severity_weight .critical = 85 ∧
    (dismiss_findings_recalc [⟨some (str "critical")⟩] [] 50).quality_score ≠
      (100 : ℚ) - severity_weight .critical := by
  refine ⟨dismiss_one_critical_quality, by norm_num [severity_weight], ?_⟩
  rw [dismiss_one_critical_quality]
  norm_num [severity_weight]

theorem enumFrom_filter_keepByIndex (dismissed : List ℕ) :
    ∀ (xs : List StoredFinding) (k : ℕ),
      ((xs.enumFrom k).filter (fun p => p.1 ∉ dismissed)).map (·.2) =
        keepByIndex dismissed k xs := by
  intro xs
  induction xs with
  | nil => intro k; rfl
  | cons f rest ih =>
    intro k
    rw [List.enumFrom, List.filter_cons]
    by_cases hk : k ∈ dismissed
    · rw [if_neg (by simpa using hk)]
      rw [ih (k + 1)]
      simp [keepByIndex, hk]
    · rw [if_pos (by simpa using hk)]
      rw [List.map_cons, ih (k + 1)]
      simp [keepByIndex, hk]

theorem dismiss_one_major_quality :
    (dismiss_findings_recalc [⟨some (str "major")⟩] [] 50).quality_score = 85 := by
  have w : dismissSeverityWeight ⟨some (str "major")⟩ = (15 : ℚ) := by decide
  have e1 : (dismiss_findings_recalc [⟨some (str "major")⟩] [] 50).quality_score
      = max 0 (100 - 15) := by
    simp [dismiss_findings_recalc, List.enum, List.enumFrom, w]
  rw [e1, show (100 : ℚ) - 15 = 85 by norm_num,
    max_eq_right (by norm_num : (0 : ℚ) ≤ 85)]

theorem dismiss_one_major_overall :
    (dismiss_findings_recalc [⟨some (str "major")⟩] [] 50).overall_score = 71 := by
  have e0 : (dismiss_findings_recalc [⟨some (str "major")⟩] [] 50).overall_score
      = pyint (50 * 0.4 +
          (dismiss_findings_recalc [⟨some (str "major")⟩] [] 50).quality_score * 0.6) :=
    rfl
  rw [e0, dismiss_one_major_quality,
    show (50 : ℚ) * 0.4 + 85 * 0.6 = ((71 : ℤ) : ℚ) by norm_num]
  simp [pyint, Int.floor_intCast]

/-- C1 (amended): the dismiss-findings recalculation recomputes
`quality_score` as 100 minus the sum, over only the remaining
(non-dismissed) findings, of the severity weights
`{critical: 25, major: 15, minor: 5, info: 0}` — *not* the assessor step-8
weights `{15, 10, 5, 0}` — floored at 0, and recomputes
`overall_score = int(0.4×completeness_score + 0.6×quality_score)`
(truncated to an integer); for `completeness_score = 50` and exactly one
remaining major-severity finding (dismiss weight 15), `quality_score = 85`
and `overall_score = 71`. -/
theorem claim1_dismiss_recalc (findings : List StoredFinding)
    (dismissed : List ℕ) (completeness_score : ℚ) :
    (dismiss_findings_recalc findings dismissed completeness_score).remaining_findings =
      keepByIndex dismissed 0 findings ∧
    (dismiss_findings_recalc findings dismissed completeness_score).quality_score =
      max 0 (100 -
        ((keepByIndex dismissed 0 findings).map dismissSeverityWeight).sum) ∧
    (dismiss_findings_recalc findings dismissed completeness_score).overall_score =
      pyint (completeness_score * 0.4 +
        (dismiss_findings_recalc findings dismissed completeness_score).quality_score
          * 0.6) ∧
    dismissSeverityWeight ⟨some (str "critical")⟩ = 25 ∧
    dismissSeverityWeight ⟨some (str "major")⟩ = 15 ∧
    dismissSeverityWeight ⟨some (str "minor")⟩ = 5 ∧
    dismissSeverityWeight ⟨some (str "info")⟩ = 0 ∧
    (dismiss_findings_recalc [⟨some (str "major")⟩] [] 50).quality_score = 85 ∧
    (dismiss_findings_recalc [⟨some (str "major")⟩] [] 50).overall_score = 71 := by
  have hrem : (dismiss_findings_recalc findings dismissed
      completeness_score).remaining_findings = keepByIndex dismissed 0 findings := by
    simp only [dismiss_findings_recalc]
    exact enumFrom_filter_keepByIndex dismissed findings 0
  refine ⟨hrem, ?_, rfl, ?_, ?_, ?_, ?_, dismiss_one_major_quality,
    dismiss_one_major_overall⟩
  · simp only [dismiss_findings_recalc] at hrem ⊢
    rw [hrem]
  · decide
  · decide
  · decide
  · decide

/-! ## Claim C5 -/

theorem parseSubSitemaps_eq_flatten (subs : List SitemapFetch) :
    parseSubSitemaps subs = ((okSubDocs subs).map parse_sitemap).flatten := by
  induction subs with
  | nil => rfl
  | cons head rest ih =>
    cases head with
    | failed => simpa [parseSubSitemaps, okSubDocs] using ih
    | ok d => simp [parseSubSitemaps, okSubDocs, ih]

/-- C5: a sitemap document containing `<sitemap>` entries is an index
whose result is the in-order concatenation of recursively parsing every
successfully fetched sub-sitemap; a document containing `<loc>` entries
directly is a leaf whose result is its URLs with every URL ending in
`.pdf`, `.jpg`, `.png`, `.gif`, `.css`, `.js` or `.xml` and every URL
mentioning a known image-CDN domain removed; a two-level index pointing to
two leaf sitemaps of three page URLs each flattens to exactly those six
URLs. -/
theorem claim5_sitemap_parsing (subs : List SitemapFetch) (locs : List Str)
    (h : subs ≠ []) :
    parse_sitemap (.mk subs locs) =
      ((okSubDocs subs).map parse_sitemap).flatten ∧
    parse_sitemap (.mk [] locs) =
      locs.filter (fun url =>
        ¬ (endsWith (str ".pdf") url ∨ endsWith (str ".jpg") url ∨
           endsWith (str ".png") url ∨ endsWith (str ".gif") url ∨
           endsWith (str ".css") url ∨ endsWith (str ".js") url ∨
           endsWith (str ".xml") url) ∧
        ¬ (containsSub (str "images.unsplash.com") url ∨
           containsSub (str "cdn.pixabay.com") url ∨
           containsSub (str "cloudinary.com") url ∨
           containsSub (str "imgur.com") url)) ∧
    parse_sitemap (.mk
      [.ok (.mk [] [str "https://ex.org/a", str "https://ex.org/b",
         str "https://ex.org/c"]),
       .ok (.mk [] [str "https://ex.org/d", str "https://ex.org/e",
         str "https://ex.org/f"])] []) =
      [str "https://ex.org/a", str "https://ex.org/b", str "https://ex.org/c",
       str "https://ex.org/d", str "https://ex.org/e", str "https://ex.org/f"] := by
  refine ⟨?_, ?_, ?_⟩
  · rw [parse_sitemap]
    rw [if_neg (by simpa using h)]
    exact parseSubSitemaps_eq_flatten subs
  · have e : parse_sitemap (.mk [] locs) = locs.filter sitemapKeepUrl := by
      rw [parse_sitemap]
      simp
    rw [e]
    refine List.filter_congr ?_
    intro url _
    simp [sitemapKeepUrl, sitemapSkipExtensions, sitemapSkipDomains]
  · have hk1 : List.filter sitemapKeepUrl
        [str "https://ex.org/a", str "https://ex.org/b", str "https://ex.org/c"] =
        [str "https://ex.org/a", str "https://ex.org/b", str "https://ex.org/c"] := by
      decide
    have hk2 : List.filter sitemapKeepUrl
        [str "https://ex.org/d", str "https://ex.org/e", str "https://ex.org/f"] =
        [str "https://ex.org/d", str "https://ex.org/e", str "https://ex.org/f"] := by
      decide
    rw [parse_sitemap]
    simp only [List.isEmpty_cons, if_false, Bool.false_eq_true]
    rw [parseSubSitemaps, parseSubSitemaps, parseSubSitemaps]
    rw [parse_sitemap, parse_sitemap]
    simp only [List.isEmpty_nil, if_true]
    rw [hk1, hk2]
    rfl

/-- Witness for C5 at a concrete one-entry index. -/
theorem claim5_witness :
    ([SitemapFetch.ok (.mk [] [str "https://ex.org/a"])] ≠
      ([] : List SitemapFetch)) ∧
    parse_sitemap (.mk [.ok (.mk [] [str "https://ex.org/a"])] []) =
      ((okSubDocs [.ok (.mk [] [str "https://ex.org/a"])]).map
        parse_sitemap).flatten :=
  ⟨by simp,
   (claim5_sitemap_parsing [.ok (.mk [] [str "https://ex.org/a"])] []
     (by simp)).1⟩

/-! ## Claim C4 -/

theorem crawlFetchLoop_charact (fetch : FetchEnv) (can_fetch : Str → Bool)
    (max_pages : ℕ) :
    ∀ (urls : List Str) (pages : List Page),
      pages.length + urls.length ≤ max_pages →
      crawlFetchLoop fetch can_fetch max_pages urls pages =
        pages ++ (urls.filter can_fetch).filterMap (fetch_page fetch) := by
  intro urls
  induction urls with
  | nil => intro pages _; simp [crawlFetchLoop]
  | cons u rest ih =>
    intro pages h
    have hlt : ¬ (max_pages ≤ pages.length) := by
      simp only [List.length_cons] at h
      omega
    rw [crawlFetchLoop, if_neg hlt]
    by_cases hcf : can_fetch u
    · rw [if_neg (by simpa using hcf)]
      cases hfp : fetch_page fetch u with
      | some page =>
        dsimp only
        rw [ih (pages ++ [page]) (by simp only [List.length_append,
          List.length_cons, List.length_nil] at h ⊢; omega)]
        simp [List.filter_cons, hcf, List.filterMap_cons, hfp]
      | none =>
        dsimp only
        rw [ih pages (by simp only [List.length_cons] at h; omega)]
        simp [List.filter_cons, hcf, List.filterMap_cons, hfp]
    · rw [if_pos (by simpa using hcf)]
      rw [ih pages (by simp only [List.length_cons] at h; omega)]
      simp [List.filter_cons, hcf]

/-- C4: for every crawl invocation, the collected page list is exactly the
candidate URLs (truncated to `max_pages`) that pass the robots check and
fetch as HTTP-200 HTML pages, in order; hence it never exceeds
`max_pages`, and every collected page has `status_code == 200` and was
fetched with an HTML content-type.  Pages failing either check are
discarded (the fetch yields no page) and each candidate URL is processed
exactly once, so failed fetches are never retried and never included. -/
theorem claim4_crawl_invariants (fetch : FetchEnv) (can_fetch : Str → Bool)
    (max_pages : ℕ) (urls_to_crawl : List Str) :
    crawl_pages fetch can_fetch max_pages urls_to_crawl =
      ((urls_to_crawl.take max_pages).filter can_fetch).filterMap
        (fetch_page fetch) ∧
    (crawl_pages fetch can_fetch max_pages urls_to_crawl).length ≤ max_pages ∧
    ∀ p ∈ crawl_pages fetch can_fetch max_pages urls_to_crawl,
      p.status_code = 200 ∧
      ∃ resp, fetch p.url = some resp ∧
        containsSub (str "text/html") resp.content_type = true ∧
        resp.status_code = 200 := by
  have hch : crawl_pages fetch can_fetch max_pages urls_to_crawl =
      ((urls_to_crawl.take max_pages).filter can_fetch).filterMap
        (fetch_page fetch) := by
    unfold crawl_pages
    rw [crawlFetchLoop_charact fetch can_fetch max_pages
      (urls_to_crawl.take max_pages) []
      (by simp [List.length_take_le])]
    simp
  refine ⟨hch, ?_, ?_⟩
  · rw [hch]
    calc (((urls_to_crawl.take max_pages).filter can_fetch).filterMap
          (fetch_page fetch)).length
        ≤ ((urls_to_crawl.take max_pages).filter can_fetch).length :=
          List.length_filterMap_le _ _
      _ ≤ (urls_to_crawl.take max_pages).length := List.length_filter_le _ _
      _ ≤ max_pages := by simp [List.length_take_le]
  · intro p hp
    rw [hch] at hp
    obtain ⟨u, _, hfp⟩ := List.mem_filterMap.mp hp
    unfold fetch_page at hfp
    cases hf : fetch u with
    | none => rw [hf] at hfp; cases hfp
    | some resp =>
      rw [hf] at hfp
      dsimp only at hfp
      by_cases hhtml : containsSub (str "text/html") resp.content_type
      · rw [if_neg (by simpa using hhtml)] at hfp
        by_cases hst : resp.status_code = 200
        · rw [if_neg (by simpa using hst)] at hfp
          injection hfp with hfp
          subst hfp
          exact ⟨by simpa using hst, resp, hf, by simpa using hhtml,
            by simpa using hst⟩
        · rw [if_pos (by simpa using hst)] at hfp
          cases hfp
      · rw [if_pos (by simpa using hhtml)] at hfp
        cases hfp

/-- Witness for C4 at a concrete two-URL crawl: the failing URL is
discarded and the collected page passes both checks. -/
theorem claim4_witness :
    crawl_pages
        (fun u => if u = str "/ok" then
          some ⟨200, str "text/html", str "<p>hi</p>", str "T"⟩ else none)
        (fun _ => true) 30 [str "/ok", str "/bad"] =
      [⟨str "/ok", str "T", str "<p>hi</p>", 200⟩] ∧
    ((⟨str "/ok", str "T", str "<p>hi</p>", 200⟩ : Page).status_code = 200 ∧
     ∃ resp, (fun u => if u = str "/ok" then
          some ⟨200, str "text/html", str "<p>hi</p>", str "T"⟩
        else none : FetchEnv) (⟨str "/ok", str "T", str "<p>hi</p>", 200⟩ : Page).url
        = some resp ∧
       containsSub (str "text/html") resp.content_type = true ∧
       resp.status_code = 200) := by
  have h := claim4_crawl_invariants
    (fun u => if u = str "/ok" then
      some ⟨200, str "text/html", str "<p>hi</p>", str "T"⟩ else none)
    (fun _ => true) 30 [str "/ok", str "/bad"]
  have hpages : crawl_pages
      (fun u => if u = str "/ok" then
        some ⟨200, str "text/html", str "<p>hi</p>", str "T"⟩ else none)
      (fun _ => true) 30 [str "/ok", str "/bad"] =
      [⟨str "/ok", str "T", str "<p>hi</p>", 200⟩] := by
    rw [h.1]
    decide
  exact ⟨hpages, h.2.2 _ (by rw [hpages]; exact List.mem_singleton_self _)⟩

/-! ## Claim C3 -/

theorem alookup_cons_self (k : Str) (v : α) (rest : List (Str × α)) :
    alookup k ((k, v) :: rest) = some v := by
  simp [alookup]

theorem alookup_cons_ne (k k' : Str) (v : α) (rest : List (Str × α))
    (h : ¬ (k' = k)) : alookup k ((k', v) :: rest) = alookup k rest := by
  simp [alookup, h]

/-- C3: the assessor score calculation computes
`completeness_score = 0.6×(required present/required count×100) +
0.4×(avg section completeness×100)`,
`quality_score = clamp(100 − Σ severity weights over quality+completeness
findings, 0, 100)` with weights `{critical:15, major:10, minor:5, info:0}`,
and `overall_score = 0.5×completeness + 0.5×quality`, multiplied by 1.1 and
capped at 100 exactly when size data was evaluated and produced no
size-appropriate findings; each is rounded to one decimal place in the
returned score map. -/
theorem claim3_calculate_scores (tdef : TemplateDef)
    (sa : List SectionAssessment) (findings : List AssessmentFinding)
    (org_size : Option OrganizationSize)
    (hreq : tdef.required_sections ≠ []) (hsec : sa ≠ []) :
    alookup (str "completeness") (calculate_scores tdef sa findings org_size) =
      some (pyround 1 (specCompletenessScore tdef sa)) ∧
    alookup (str "quality") (calculate_scores tdef sa findings org_size) =
      some (pyround 1 (specQualityScore findings)) ∧
    alookup (str "overall") (calculate_scores tdef sa findings org_size) =
      some (pyround 1 (specOverallScore tdef sa findings org_size)) ∧
    severity_weight .critical = 15 ∧ severity_weight .major = 10 ∧
    severity_weight .minor = 5 ∧ severity_weight .info = 0 := by
  have hreq' : 0 < tdef.required_sections.length := List.length_pos.mpr hreq
  have hC : (if sa ≠ [] then
      (if 0 < tdef.required_sections.length then
        (((sa.filter fun s =>
          s.present ∧ s.section_name ∈ tdef.required_sections).length : ℚ) /
          (tdef.required_sections.length : ℚ)) * 100
       else 0) * 0.6 +
      ((sa.map (·.completeness)).sum / (sa.length : ℚ)) * 100 * 0.4
    else
      (if 0 < tdef.required_sections.length then
        (((sa.filter fun s =>
          s.present ∧ s.section_name ∈ tdef.required_sections).length : ℚ) /
          (tdef.required_sections.length : ℚ)) * 100
       else 0)) = specCompletenessScore tdef sa := by
    rw [if_pos hsec, if_pos hreq']
    unfold specCompletenessScore
    ring
  refine ⟨?_, ?_, ?_, rfl, rfl, rfl, rfl⟩
  · simp only [calculate_scores]
    rw [alookup_cons_ne _ _ _ _ (by decide), alookup_cons_self]
    rw [hC]
  · simp only [calculate_scores]
    rw [alookup_cons_ne _ _ _ _ (by decide),
      alookup_cons_ne _ _ _ _ (by decide), alookup_cons_self]
    rfl
  · simp only [calculate_scores]
    rw [alookup_cons_self]
    congr 1
    unfold specOverallScore
    cases org_size with
    | none =>
      simp only [Option.isSome_none, Bool.false_eq_true, false_and, if_false]
      rw [hC]
      unfold specQualityScore
      ring
    | some sz =>
      simp only [Option.isSome_some, true_and]
      by_cases hz : (findings.filter fun f =>
          f.category = .size_appropriate).length = 0
      · rw [if_pos hz, if_pos hz]
        congr 1
        rw [hC]
        unfold specQualityScore
        ring
      · rw [if_neg hz, if_neg hz]
        rw [hC]
        unfold specQualityScore
        ring

/-- Witness for C3 at the charity template with one assessed section and no
findings. -/
theorem claim3_witness :
    (charityTemplateDef.required_sections ≠ []) ∧
    (([⟨str "About", true, 1, 1, []⟩] : List SectionAssessment) ≠ []) ∧
    (alookup (str "completeness")
        (calculate_scores charityTemplateDef [⟨str "About", true, 1, 1, []⟩] [] none) =
      some (pyround 1 (specCompletenessScore charityTemplateDef
        [⟨str "About", true, 1, 1, []⟩])) ∧
     alookup (str "quality")
        (calculate_scores charityTemplateDef [⟨str "About", true, 1, 1, []⟩] [] none) =
      some (pyround 1 (specQualityScore [])) ∧
     alookup (str "overall")
        (calculate_scores charityTemplateDef [⟨str "About", true, 1, 1, []⟩] [] none) =
      some (pyround 1 (specOverallScore charityTemplateDef
        [⟨str "About", true, 1, 1, []⟩] [] none)) ∧
     severity_weight .critical = 15 ∧ severity_weight .major = 10 ∧
     severity_weight .minor = 5 ∧ severity_weight .info = 0) :=
  ⟨by simp [charityTemplateDef], by simp,
   claim3_calculate_scores charityTemplateDef [⟨str "About", true, 1, 1, []⟩] []
     none (by simp [charityTemplateDef]) (by simp)⟩

/-! ## Claim C2 -/

theorem isSome_opt_map (f : α → β) (o : Option α) :
    (Option.map f o).isSome = o.isSome := by
  cases o <;> rfl

theorem findSome?_isSome_iff (f : α → Option β) (l : List α) :
    (l.findSome? f).isSome ↔ ∃ a ∈ l, (f a).isSome := by
  induction l with
  | nil => simp [List.findSome?]
  | cons a as ih =>
    rw [List.findSome?_cons]
    cases h : f a with
    | some b => simp [h]
    | none =>
      rw [ih]
      simp [h]

/-- C2 counterexample: the completeness check does not resolve aliases.
The document `"# T\n## Our Story\nwe began"` contains "Our Story", a listed
synonym of "About", so `_find_section` resolves "About" as present; yet
`_check_completeness` (which tests exact names only) still emits the
critical "Required section \x27About\x27 is missing" finding. -/
theorem claim2_counterexample :
    (find_section (str "About")
      (parse_llmstxt (str "# T\n## Our Story\nwe began"))).isSome = true ∧
    missingSectionFinding (str "About") ∈
      check_completeness charityTemplateDef
        (parse_llmstxt (str "# T\n## Our Story\nwe began")) := by
  decide

/-- C2 (amended): the assessor completeness check resolves each required
section by exact name only: an exactly-absent section yields the critical
finding and a present-but-blank one the major finding, and every finding
it emits names a required section that is exactly absent or
present-but-blank (so alias-satisfied sections still produce critical
findings).  Alias resolution — canonical name present, listed synonym
present, or symmetric (the name is a listed synonym of a present canonical
name) — is implemented by `_find_section`, which is used by the
per-section assessment and size checks, not by the completeness check. -/
theorem claim2_completeness_exact_and_alias (tdef : TemplateDef)
    (parsed : Parsed) (s : Str) (hs : s ∈ tdef.required_sections) :
    (alookup s parsed.sections = none →
      missingSectionFinding s ∈ check_completeness tdef parsed) ∧
    (∀ c, alookup s parsed.sections = some c → pystrip c = [] →
      emptySectionFinding s ∈ check_completeness tdef parsed) ∧
    (∀ f ∈ check_completeness tdef parsed, ∃ t ∈ tdef.required_sections,
      f.section_ = some t ∧
      ((f.severity = .critical ∧ alookup t parsed.sections = none) ∨
       (f.severity = .major ∧
        ∃ c, alookup t parsed.sections = some c ∧ pystrip c = []))) ∧
    ((find_section s parsed).isSome ↔
      ((alookup s parsed.sections).isSome ∨
       (∃ a ∈ (alookup s SECTION_ALIASES).getD [],
         (alookup a parsed.sections).isSome) ∨
       (∃ p ∈ SECTION_ALIASES, s ∈ p.2 ∧
         (alookup p.1 parsed.sections).isSome))) := by
  refine ⟨?_, ?_, ?_, ?_⟩
  · intro h
    unfold check_completeness
    rw [List.mem_flatten]
    refine ⟨_, List.mem_map_of_mem _ hs, ?_⟩
    rw [h]
    simp [missingSectionFinding, List.append_assoc]
  · intro c hc hempty
    unfold check_completeness
    rw [List.mem_flatten]
    refine ⟨_, List.mem_map_of_mem _ hs, ?_⟩
    rw [hc]
    simp only [if_pos hempty]
    simp [emptySectionFinding, List.append_assoc]
  · intro f hf
    unfold check_completeness at hf
    rw [List.mem_flatten] at hf
    obtain ⟨l, hl, hfl⟩ := hf
    rw [List.mem_map] at hl
    obtain ⟨t, ht, rfl⟩ := hl
    cases halo : alookup t parsed.sections with
    | none =>
      rw [halo] at hfl
      simp only [List.mem_singleton] at hfl
      subst hfl
      exact ⟨t, ht, rfl, Or.inl ⟨rfl, halo⟩⟩
    | some c =>
      rw [halo] at hfl
      dsimp only at hfl
      by_cases hc : pystrip c = []
      · rw [if_pos hc] at hfl
        simp only [List.mem_singleton] at hfl
        subst hfl
        exact ⟨t, ht, rfl, Or.inr ⟨rfl, c, halo, hc⟩⟩
      · rw [if_neg hc] at hfl
        cases hfl
  · unfold find_section
    cases h0 : alookup s parsed.sections with
    | some c => simp [h0]
    | none =>
      simp only [h0, Option.isSome_none, Bool.false_eq_true, false_or]
      cases h1 : ((alookup s SECTION_ALIASES).getD []).findSome?
          (fun a => (alookup a parsed.sections).map fun c => (a, c)) with
      | some r =>
        simp only [h1, Option.isSome_some, true_iff]
        left
        have := (findSome?_isSome_iff
          (fun a => (alookup a parsed.sections).map fun c => (a, c))
          ((alookup s SECTION_ALIASES).getD [])).mp (by rw [h1]; rfl)
        obtain ⟨a, ha, hsome⟩ := this
        exact ⟨a, ha, by simpa [isSome_opt_map] using hsome⟩
      | none =>
        have h1' : ∀ a ∈ (alookup s SECTION_ALIASES).getD [],
            (alookup a parsed.sections).isSome = false := by
          intro a ha
          by_contra hcon
          have : ((alookup s SECTION_ALIASES).getD []).findSome?
              (fun a => (alookup a parsed.sections).map fun c => (a, c)) ≠
                none := by
            have : (((alookup s SECTION_ALIASES).getD []).findSome?
                (fun a => (alookup a parsed.sections).map fun c => (a, c))).isSome := by
              rw [findSome?_isSome_iff]
              refine ⟨a, ha, ?_⟩
              rw [isSome_opt_map]
              rw [Bool.not_eq_false] at hcon
              exact hcon
            exact Option.ne_none_iff_isSome.mpr this
          exact this h1
        simp only [h1]
        cases h2 : SECTION_ALIASES.findSome? (fun p =>
            if s ∈ p.2 then (alookup p.1 parsed.sections).map fun c => (p.1, c)
            else none) with
        | some r =>
          simp only [h2, Option.isSome_some, true_iff]
          right
          have := (findSome?_isSome_iff
            (fun p => if s ∈ p.2 then
              (alookup p.1 parsed.sections).map fun c => (p.1, c)
             else none) SECTION_ALIASES).mp (by rw [h2]; rfl)
          obtain ⟨p, hp, hsome⟩ := this
          by_cases hmem : s ∈ p.2
          · rw [if_pos hmem, isSome_opt_map] at hsome
            exact ⟨p, hp, hmem, hsome⟩
          · rw [if_neg hmem] at hsome
            cases hsome
        | none =>
          simp only [h2, Option.isSome_none, Bool.false_eq_true, false_iff,
            not_or]
          refine ⟨?_, ?_⟩
          · intro hcon
            obtain ⟨a, ha, hsome⟩ := hcon
            rw [h1' a ha] at hsome
            cases hsome
          · intro hcon
            obtain ⟨p, hp, hmem, hsome⟩ := hcon
            have : (SECTION_ALIASES.findSome? (fun p =>
                if s ∈ p.2 then
                  (alookup p.1 parsed.sections).map fun c => (p.1, c)
                else none)).isSome := by
              rw [findSome?_isSome_iff]
              refine ⟨p, hp, ?_⟩
              rw [if_pos hmem, isSome_opt_map]
              exact hsome
            rw [h2] at this
            cases this

/-- Witness for C2 at the concrete "Our Story" document. -/
theorem claim2_witness :
    (str "About") ∈ charityTemplateDef.required_sections ∧
    (alookup (str "About")
        (parse_llmstxt (str "# T\n## Our Story\nwe began")).sections = none →
      missingSectionFinding (str "About") ∈
        check_completeness charityTemplateDef
          (parse_llmstxt (str "# T\n## Our Story\nwe began"))) ∧
    ((find_section (str "About")
        (parse_llmstxt (str "# T\n## Our Story\nwe began"))).isSome ↔
      ((alookup (str "About")
          (parse_llmstxt (str "# T\n## Our Story\nwe began")).sections).isSome ∨
       (∃ a ∈ (alookup (str "About") SECTION_ALIASES).getD [],
         (alookup a
           (parse_llmstxt (str "# T\n## Our Story\nwe began")).sections).isSome) ∨
       (∃ p ∈ SECTION_ALIASES, (str "About") ∈ p.2 ∧
         (alookup p.1
           (parse_llmstxt (str "# T\n## Our Story\nwe began")).sections).isSome))) := by
  have h := claim2_completeness_exact_and_alias charityTemplateDef
    (parse_llmstxt (str "# T\n## Our Story\nwe began")) (str "About")
    (by decide)
  exact ⟨by decide, h.1, h.2.2.2⟩

/-! ## Claim C9 -/

/-- C9: the validator and the rule-based assessment path are total
functions of their input (they are defined for every content string and
template, so neither can raise), and on the empty string the validator
reports the ERROR "File is empty" (hence `valid == False`) while the
assessment findings contain the critical completeness finding for every
required section of the (possibly defaulted) template. -/
theorem claim9_never_fatal_empty (template : Str) (s : Str)
    (hs : s ∈ (assessorTemplateDef template).required_sections) :
    (⟨.error, str "File is empty", some 1⟩ : ValidationIssue) ∈
      (validate_llmstxt (str "") template).issues ∧
    (validate_llmstxt (str "") template).valid = false ∧
    missingSectionFinding s ∈ (assess_rule_based template (str "")).findings := by
  have e1 : validate_h1_heading (splitLines (str "")) =
      [⟨.error, str "File is empty", some 1⟩] := by decide
  have hmem : (⟨.error, str "File is empty", some 1⟩ : ValidationIssue) ∈
      (validate_llmstxt (str "") template).issues := by
    simp only [validate_llmstxt, e1]
    simp [List.mem_append]
  refine ⟨hmem, ?_, ?_⟩
  · simp only [validate_llmstxt] at hmem ⊢
    rw [Bool.not_eq_false']
    exact List.any_eq_true.mpr ⟨_, hmem, by simp⟩
  · have hsec : (parse_llmstxt (str "")).sections = [] := by decide
    have hcomp : missingSectionFinding s ∈
        check_completeness (assessorTemplateDef template) (parse_llmstxt (str "")) := by
      unfold check_completeness
      rw [List.mem_flatten]
      refine ⟨_, List.mem_map_of_mem _ hs, ?_⟩
      rw [show alookup s (parse_llmstxt (str "")).sections = none by
        rw [hsec]; rfl]
      simp [missingSectionFinding, List.append_assoc]
    simp only [assess_rule_based]
    simp only [List.mem_append]
    exact Or.inl (Or.inr hcomp)

/-- Witness for C9 at the charity template and its "About" requirement. -/
theorem claim9_witness :
    (str "About") ∈ (assessorTemplateDef (str "charity")).required_sections ∧
    ((⟨.error, str "File is empty", some 1⟩ : ValidationIssue) ∈
      (validate_llmstxt (str "") (str "charity")).issues ∧
     (validate_llmstxt (str "") (str "charity")).valid = false ∧
     missingSectionFinding (str "About") ∈
       (assess_rule_based (str "charity") (str "")).findings) :=
  ⟨by decide, claim9_never_fatal_empty (str "charity") (str "About") (by decide)⟩

/-! ## Claim C6 -/

/-- A stripped line that starts with `"> "` always has non-blank content
after the marker: stripping removes trailing whitespace, so the
empty-blockquote branch of `_validate_blockquote` can never fire. -/
theorem bq_content_nonempty {l : Str}
    (h : startsWith (str "> ") (pystrip l) = true) :
    pystrip ((pystrip l).drop 2) ≠ [] := by
  intro hnil
  have hall : ∀ c ∈ (pystrip l).drop 2, isWs c := pystrip_eq_nil_iff.mp hnil
  have hpref : str "> " <+: pystrip l := by
    rw [startsWith, List.isPrefixOf_iff_prefix] at h
    exact h
  obtain ⟨t, ht⟩ := hpref
  have htd : (pystrip l).drop 2 = t := by rw [← ht]; rfl
  have hdecomp : rstrip (lstrip l) = ['>'] ++ (' ' :: t) := by
    rw [show (['>'] ++ (' ' :: t) : Str) = str "> " ++ t by rfl, ht]
    rfl
  have hws : ∀ c ∈ (' ' :: t), isWs c := by
    intro c hc
    cases hc with
    | head => decide
    | tail _ hct => exact hall c (htd ▸ hct)
  have := rstrip_no_ws_suffix hdecomp hws
  cases this

theorem bqScan_snd_eq_nil : ∀ (w : List Str) (i : ℕ), (bqScan i w).2 = [] := by
  intro w
  induction w with
  | nil => intro i; rfl
  | cons l rest ih =>
    intro i
    rw [bqScan]
    by_cases h0 : pystrip l = []
    · rw [if_pos h0]; exact ih (i + 1)
    · rw [if_neg h0]
      by_cases h1 : startsWith (str "> ") (pystrip l)
      · rw [if_pos h1]
        simp only [if_neg (bq_content_nonempty h1)]
      · rw [if_neg h1]
        by_cases h2 : startsWith (str ">") (pystrip l)
        · rw [if_pos h2]; exact ih (i + 1)
        · rw [if_neg h2]

theorem bqScan_fst_eq_windowHasBQ : ∀ (w : List Str) (i : ℕ),
    (bqScan i w).1 = windowHasBQ w := by
  intro w
  induction w with
  | nil => intro i; rfl
  | cons l rest ih =>
    intro i
    rw [bqScan, windowHasBQ, List.find?]
    by_cases h0 : pystrip l = []
    · rw [if_pos h0]
      have hpred : (decide (pystrip l ≠ [] ∧
          (startsWith (str "> ") (pystrip l) = true ∨
           ¬ startsWith (str ">") (pystrip l) = true))) = false := by
        simp [h0]
      rw [hpred]
      exact ih (i + 1)
    · rw [if_neg h0]
      by_cases h1 : startsWith (str "> ") (pystrip l)
      · rw [if_pos h1]
        have hpred : (decide (pystrip l ≠ [] ∧
            (startsWith (str "> ") (pystrip l) = true ∨
             ¬ startsWith (str ">") (pystrip l) = true))) = true := by
          simp [h0, h1]
        rw [hpred]
        simp [h1]
      · rw [if_neg h1]
        by_cases h2 : startsWith (str ">") (pystrip l)
        · rw [if_pos h2]
          have hpred : (decide (pystrip l ≠ [] ∧
              (startsWith (str "> ") (pystrip l) = true ∨
               ¬ startsWith (str ">") (pystrip l) = true))) = false := by
            simp [h1, h2]
          rw [hpred]
          exact ih (i + 1)
        · rw [if_neg h2]
          have hpred : (decide (pystrip l ≠ [] ∧
              (startsWith (str "> ") (pystrip l) = true ∨
               ¬ startsWith (str ">") (pystrip l) = true))) = true := by
            simp [h0, h2]
          rw [hpred]
          simp [h1]

/-- C6 counterexample: in `"# T\nintro\n> mission"` the non-empty
blockquote `"> mission"` is the second non-blank line after the H1 — well
within the next four non-blank lines — yet the validator still emits the
blockquote warning, because its scan stops at the first non-blank,
non-blockquote line (`"intro"`). -/
theorem claim6_counterexample :
    pystrip ((splitLines (str "# T\nintro\n> mission")).getD 2 []) =
      str "> mission" ∧
    startsWith (str "> ") (str "> mission") = true ∧
    pystrip ((str "> mission").drop 2) ≠ [] ∧
    validate_blockquote (splitLines (str "# T\nintro\n> mission")) =
      [⟨.warning,
        str "Should have a blockquote (>) after H1 with one-line description",
        some 2⟩] := by
  decide

/-- C6 (amended): for every input, the validator emits the (single,
generic) blockquote WARNING exactly when, scanning the next 4 *raw* lines
after the first H1 line, no stripped line starting with `"> "` appears
before the scan hits a non-blank line that does not start with `">"`
(blank lines and bare-`">"` lines are skipped); a `"> "` line found this
way always has non-empty content (stripping removes trailing whitespace),
so the per-line empty-blockquote WARNING is never emitted. -/
theorem claim6_blockquote_warning (lines : List Str) :
    (∀ i ∈ validate_blockquote lines,
      i.message ≠ str "Blockquote should have meaningful content") ∧
    validate_blockquote lines =
      (match lines.findIdx? (fun l => startsWith (str "# ") (pystrip l)) with
       | none => []
       | some h1 =>
         if windowHasBQ ((lines.drop (h1 + 1)).take 4) then []
         else [⟨.warning,
           str "Should have a blockquote (>) after H1 with one-line description",
           some (h1 + 2)⟩]) := by
  have he : validate_blockquote lines =
      (match lines.findIdx? (fun l => startsWith (str "# ") (pystrip l)) with
       | none => []
       | some h1 =>
         if windowHasBQ ((lines.drop (h1 + 1)).take 4) then []
         else [⟨.warning,
           str "Should have a blockquote (>) after H1 with one-line description",
           some (h1 + 2)⟩]) := by
    unfold validate_blockquote
    cases lines.findIdx? (fun l => startsWith (str "# ") (pystrip l)) with
    | none => rfl
    | some h1 =>
      dsimp only
      rw [bqScan_snd_eq_nil, bqScan_fst_eq_windowHasBQ]
      rw [List.nil_append]
  refine ⟨?_, he⟩
  intro i hi
  rw [he] at hi
  cases hidx : lines.findIdx? (fun l => startsWith (str "# ") (pystrip l)) with
  | none => rw [hidx] at hi; cases hi
  | some h1 =>
    rw [hidx] at hi
    dsimp only at hi
    by_cases hw : windowHasBQ ((lines.drop (h1 + 1)).take 4)
    · rw [if_pos hw] at hi
      cases hi
    · rw [if_neg hw] at hi
      rw [List.mem_singleton] at hi
      subst hi
      show str "Should have a blockquote (>) after H1 with one-line description" ≠
        str "Blockquote should have meaningful content"
      decide

/-- Witness for C6: the amended characterization applied at the concrete
counterexample document. -/
theorem claim6_witness :
    (∀ i ∈ validate_blockquote (splitLines (str "# T\nintro\n> mission")),
      i.message ≠ str "Blockquote should have meaningful content") ∧
    validate_blockquote (splitLines (str "# T\nintro\n> mission")) =
      (match (splitLines (str "# T\nintro\n> mission")).findIdx?
          (fun l => startsWith (str "# ") (pystrip l)) with
       | none => []
       | some h1 =>
         if windowHasBQ
             (((splitLines (str "# T\nintro\n> mission")).drop (h1 + 1)).take 4) then
           []
         else [⟨.warning,
           str "Should have a blockquote (>) after H1 with one-line description",
           some (h1 + 2)⟩]) :=
  claim6_blockquote_warning (splitLines (str "# T\nintro\n> mission"))

/-! ## Claim C8 -/

theorem h1_h2_conflict {l : Str} (h1 : startsWith (str "# ") l = true)
    (h2 : startsWith (str "## ") l = true) : False := by
  rw [startsWith, List.isPrefixOf_iff_prefix] at h1 h2
  rw [show (str "# ") = '#' :: [' '] from rfl] at h1
  rw [show (str "## ") = '#' :: '#' :: [' '] from rfl] at h2
  cases l with
  | nil => simp at h1
  | cons a t =>
    rw [List.cons_prefix_cons] at h1 h2
    obtain ⟨-, h1⟩ := h1
    obtain ⟨-, h2⟩ := h2
    cases t with
    | nil => simp at h1
    | cons b u =>
      rw [List.cons_prefix_cons] at h1 h2
      obtain ⟨hsp, -⟩ := h1
      obtain ⟨hhash, -⟩ := h2
      exact absurd (hhash.trans hsp.symm) (by decide)

theorem bq_h2_conflict {l : Str} (h1 : startsWith (str "> ") l = true)
    (h2 : startsWith (str "## ") l = true) : False := by
  rw [startsWith, List.isPrefixOf_iff_prefix] at h1 h2
  rw [show (str "> ") = '>' :: [' '] from rfl] at h1
  rw [show (str "## ") = '#' :: '#' :: [' '] from rfl] at h2
  cases l with
  | nil => simp at h1
  | cons a t =>
    rw [List.cons_prefix_cons] at h1 h2
    obtain ⟨ha1, -⟩ := h1
    obtain ⟨ha2, -⟩ := h2
    exact absurd (ha1.trans ha2.symm) (by decide)

theorem bodyLines_nil : bodyLines [] = [] := rfl

theorem bodyLines_cons_stop {l : Str} (rest : List Str)
    (h : startsWith (str "## ") l = true) : bodyLines (l :: rest) = [] := by
  unfold bodyLines
  rw [List.takeWhile_cons]
  simp [h]

theorem bodyLines_cons_skip {l : Str} (rest : List Str)
    (hno2 : ¬ startsWith (str "## ") l = true)
    (hskip : startsWith (str "# ") l = true ∨ startsWith (str "> ") l = true) :
    bodyLines (l :: rest) = bodyLines rest := by
  unfold bodyLines
  rw [List.takeWhile_cons]
  rcases hskip with h | h <;> simp [hno2, h, List.filter_cons]

theorem bodyLines_cons_keep {l : Str} (rest : List Str)
    (hno2 : ¬ startsWith (str "## ") l = true)
    (h1 : ¬ startsWith (str "# ") l = true)
    (h2 : ¬ startsWith (str "> ") l = true) :
    bodyLines (l :: rest) = l :: bodyLines rest := by
  unfold bodyLines
  rw [List.takeWhile_cons]
  simp [hno2, h1, h2, List.filter_cons]

theorem parseLines_some_sections :
    ∀ (ls : List Str) (p : Parsed) (n : Str) (acc : List Str),
      (parseLines p (some (n, acc)) ls).sections =
        (sectionBlocks ls).foldl (fun m u => dictInsert m u.1 u.2)
          (dictInsert p.sections n (joinLines (acc ++ bodyLines ls))) := by
  intro ls
  induction ls with
  | nil =>
    intro p n acc
    rw [parseLines, bodyLines_nil, List.append_nil]
    rfl
  | cons l rest ih =>
    intro p n acc
    rw [parseLines]
    by_cases hH1 : startsWith (str "# ") l = true
    · have hno2 : ¬ startsWith (str "## ") l = true := fun h => h1_h2_conflict hH1 h
      rw [if_pos hH1, ih]
      rw [show sectionBlocks (l :: rest) = sectionBlocks rest by
        rw [sectionBlocks, if_neg hno2]]
      rw [bodyLines_cons_skip rest hno2 (Or.inl hH1)]
    · rw [if_neg hH1]
      by_cases hBQ : startsWith (str "> ") l = true
      · have hno2 : ¬ startsWith (str "## ") l = true := fun h => bq_h2_conflict hBQ h
        rw [if_pos hBQ, ih]
        rw [show sectionBlocks (l :: rest) = sectionBlocks rest by
          rw [sectionBlocks, if_neg hno2]]
        rw [bodyLines_cons_skip rest hno2 (Or.inr hBQ)]
      · rw [if_neg hBQ]
        by_cases hH2 : startsWith (str "## ") l = true
        · rw [if_pos hH2]
          dsimp only
          rw [ih]
          rw [show sectionBlocks (l :: rest) =
              (pystrip (l.drop 3), parsedBodySpec rest) :: sectionBlocks rest by
            rw [sectionBlocks, if_pos hH2]]
          rw [List.foldl_cons]
          rw [bodyLines_cons_stop rest hH2, List.append_nil]
          rfl
        · rw [if_neg hH2]
          dsimp only
          rw [ih]
          rw [show sectionBlocks (l :: rest) = sectionBlocks rest by
            rw [sectionBlocks, if_neg hH2]]
          rw [bodyLines_cons_keep rest hH2 hH1 hBQ]
          simp [List.append_assoc]

theorem parseLines_none_sections :
    ∀ (ls : List Str) (p : Parsed),
      (parseLines p none ls).sections =
        (sectionBlocks ls).foldl (fun m u => dictInsert m u.1 u.2) p.sections := by
  intro ls
  induction ls with
  | nil => intro p; rfl
  | cons l rest ih =>
    intro p
    rw [parseLines]
    by_cases hH1 : startsWith (str "# ") l = true
    · have hno2 : ¬ startsWith (str "## ") l = true := fun h => h1_h2_conflict hH1 h
      rw [if_pos hH1, ih]
      rw [show sectionBlocks (l :: rest) = sectionBlocks rest by
        rw [sectionBlocks, if_neg hno2]]
    · rw [if_neg hH1]
      by_cases hBQ : startsWith (str "> ") l = true
      · have hno2 : ¬ startsWith (str "## ") l = true := fun h => bq_h2_conflict hBQ h
        rw [if_pos hBQ, ih]
        rw [show sectionBlocks (l :: rest) = sectionBlocks rest by
          rw [sectionBlocks, if_neg hno2]]
      · rw [if_neg hBQ]
        by_cases hH2 : startsWith (str "## ") l = true
        · rw [if_pos hH2]
          rw [parseLines_some_sections rest p (pystrip (l.drop 3)) []]
          rw [show sectionBlocks (l :: rest) =
              (pystrip (l.drop 3), parsedBodySpec rest) :: sectionBlocks rest by
            rw [sectionBlocks, if_pos hH2]]
          rw [List.foldl_cons, List.nil_append]
          rfl
        · rw [if_neg hH2]
          rw [ih]
          rw [show sectionBlocks (l :: rest) = sectionBlocks rest by
            rw [sectionBlocks, if_neg hH2]]

theorem sectionBlocks_map_fst (ls : List Str) :
    (sectionBlocks ls).map (fun u => u.1) = headingNames ls := by
  induction ls with
  | nil => rfl
  | cons l rest ih =>
    rw [sectionBlocks]
    unfold headingNames
    rw [List.filter_cons]
    by_cases h : startsWith (str "## ") l = true
    · simp only [if_pos h, h, List.map_cons, List.map]
      rw [ih]
      rfl
    · simp only [if_neg h]
      exact ih

theorem foldl_dictInsert_fresh :
    ∀ (us : List (Str × Str)) (m : List (Str × Str)),
      (∀ k ∈ us.map (fun u => u.1), ∀ q ∈ m, q.1 ≠ k) →
      (us.map (fun u => u.1)).Nodup →
      us.foldl (fun m u => dictInsert m u.1 u.2) m = m ++ us := by
  intro us
  induction us with
  | nil => intro m _ _; simp
  | cons u rest ih =>
    intro m hdis hnd
    rw [List.foldl_cons]
    have hfresh : m.any (fun q => q.1 = u.1) = false := by
      rw [Bool.eq_false_iff]
      intro hany
      obtain ⟨q, hq, hq1⟩ := List.any_eq_true.mp hany
      exact hdis u.1 (by simp) q hq (by simpa using hq1)
    have hstep : dictInsert m u.1 u.2 = m ++ [(u.1, u.2)] := by
      unfold dictInsert
      rw [hfresh]
      simp
    rw [hstep]
    rw [List.map_cons] at hdis hnd
    rw [ih (m ++ [(u.1, u.2)]) ?_ (List.nodup_cons.mp hnd).2]
    · simp
    · intro k hk q hq
      rcases List.mem_append.mp hq with hq | hq
      · exact hdis k (List.mem_cons_of_mem _ hk) q hq
      · rw [List.mem_singleton] at hq
        subst hq
        intro hcon
        apply (List.nodup_cons.mp hnd).1
        rw [show u.1 = k from hcon]
        exact hk

theorem sectionBlocks_eq_nil_of_no_heading (ls : List Str)
    (h : ∀ l ∈ ls, ¬ startsWith (str "## ") l = true) :
    sectionBlocks ls = [] := by
  induction ls with
  | nil => rfl
  | cons l rest ih =>
    rw [sectionBlocks, if_neg (h l (List.mem_cons_self l rest))]
    exact ih fun x hx => h x (List.mem_cons_of_mem l hx)

/-- C8 counterexample: in `"## A\n> q\nx"` the blockquote line after the
section heading is diverted to the mission field, so section "A" has body
`"x"`, not the claim's "all lines up to the next `## `", which would be
`"> q\nx"`. -/
theorem claim8_counterexample :
    (parse_llmstxt (str "## A\n> q\nx")).sections =
      [(str "A", str "x")] ∧
    (parse_llmstxt (str "## A\n> q\nx")).mission = some (str "q") ∧
    str "x" ≠ str "> q\nx" := by
  refine ⟨by decide, by decide, by decide⟩

/-- C8 (amended): the parser is total and order-preserving: any input with
no `## ` line yields zero sections (never an error), and for inputs whose
`## ` heading names are distinct, the sections map lists, in the order of
the `## ` lines, each name with a body consisting of the lines following
its heading up to the next `## ` line or end of file *excluding* lines
starting with `# ` or `> ` (those update the document title and mission
instead). -/
theorem claim8_parser_sections (content : Str) :
    ((∀ l ∈ splitLines content, ¬ startsWith (str "## ") l = true) →
      (parse_llmstxt content).sections = []) ∧
    ((headingNames (splitLines content)).Nodup →
      (parse_llmstxt content).sections = sectionBlocks (splitLines content)) := by
  constructor
  · intro h
    unfold parse_llmstxt
    rw [parseLines_none_sections]
    rw [sectionBlocks_eq_nil_of_no_heading (splitLines content) h]
    rfl
  · intro hnd
    unfold parse_llmstxt
    rw [parseLines_none_sections]
    rw [foldl_dictInsert_fresh (sectionBlocks (splitLines content)) []
      (by intro k _ q hq; cases hq)
      (by rw [sectionBlocks_map_fst]; exact hnd)]
    rfl

/-- Witness for C8 at two concrete inputs: a document with no `## ` lines
parses to zero sections, and a two-section document parses to its blocks
in order. -/
theorem claim8_witness :
    ((∀ l ∈ splitLines (str "# T\nplain text"),
        ¬ startsWith (str "## ") l = true) →
      (parse_llmstxt (str "# T\nplain text")).sections = []) ∧
    (parse_llmstxt (str "# T\nplain text")).sections = [] ∧
    ((headingNames (splitLines (str "## A\nbody\n## B"))).Nodup →
      (parse_llmstxt (str "## A\nbody\n## B")).sections =
        sectionBlocks (splitLines (str "## A\nbody\n## B"))) ∧
    (parse_llmstxt (str "## A\nbody\n## B")).sections =
      [(str "A", str "body"), (str "B", str "")] := by
  refine ⟨(claim8_parser_sections (str "# T\nplain text")).1, ?_, 
    (claim8_parser_sections (str "## A\nbody\n## B")).2, by decide⟩
  exact (claim8_parser_sections (str "# T\nplain text")).1 (by decide)

/-! ## Infrastructure for the round-trip claim -/

theorem rstrip_cons_of_rstrip_ne_nil {x : Str} (c : Char)
    (h : rstrip x ≠ []) : rstrip (c :: x) = c :: rstrip x := by
  unfold rstrip at h ⊢
  rw [List.reverse_cons, List.dropWhile_append]
  have hne : ¬ (x.reverse.dropWhile isWs).isEmpty = true := by
    rw [List.isEmpty_iff]
    intro hc
    rw [hc] at h
    simp at h
  rw [if_neg hne]
  simp

theorem rstrip_ne_nil_of_pystrip_ne_nil {x : Str} (h : pystrip x ≠ []) :
    rstrip x ≠ [] := by
  intro hc
  apply h
  rw [pystrip_eq_nil_iff]
  exact fun c hc2 => rstrip_eq_nil_iff.mp hc c hc2

theorem pystrip_rstrip_ne_nil {x : Str} (h : pystrip x ≠ []) :
    pystrip (rstrip x) ≠ [] := by
  intro hc
  have hall : ∀ c ∈ rstrip x, isWs c := pystrip_eq_nil_iff.mp hc
  have : rstrip x = [] :=
    rstrip_no_ws_suffix (by rw [List.nil_append] : rstrip x = [] ++ rstrip x) hall
  exact rstrip_ne_nil_of_pystrip_ne_nil h this

theorem pystrip_h1_line {name : Str} (h : pystrip name ≠ []) :
    pystrip (str "# " ++ name) = '#' :: ' ' :: rstrip name := by
  have h1 : rstrip name ≠ [] := rstrip_ne_nil_of_pystrip_ne_nil h
  rw [show str "# " ++ name = '#' :: ' ' :: name from rfl]
  rw [pystrip_cons_of_not_ws _ (by decide)]
  rw [rstrip_cons_of_rstrip_ne_nil ' ' h1]

theorem startsWith_h1_cons (y : Str) :
    startsWith (str "# ") ('#' :: ' ' :: y) = true := by
  rw [startsWith, show str "# " = '#' :: [' '] from rfl]
  simp [List.isPrefixOf]

theorem not_h2_of_hash_space (y : Str) :
    startsWith (str "## ") ('#' :: ' ' :: y) = false := by
  rw [startsWith, show str "## " = '#' :: '#' :: [' '] from rfl]
  simp [List.isPrefixOf]

theorem not_h1_strip_of_head {c : Char} (x : Str) (hc : c ≠ '#')
    (hw : ¬ isWs c = true) :
    startsWith (str "# ") (pystrip (c :: x)) = false := by
  rw [pystrip_cons_of_not_ws x hw]
  rw [startsWith, show str "# " = '#' :: [' '] from rfl]
  simp [List.isPrefixOf]
  intro hcc
  exact absurd hcc.symm hc

theorem not_h2_strip_of_head {c : Char} (x : Str) (hc : c ≠ '#')
    (hw : ¬ isWs c = true) :
    startsWith (str "## ") (pystrip (c :: x)) = false := by
  rw [pystrip_cons_of_not_ws x hw]
  rw [startsWith, show str "## " = '#' :: '#' :: [' '] from rfl]
  simp [List.isPrefixOf]
  intro hcc
  exact absurd hcc.symm hc

theorem linesJoin_nil : linesJoin [] = [] := rfl

theorem linesJoin_cons (l : Str) (ls : List Str) :
    linesJoin (l :: ls) = (l ++ ['\n']) ++ linesJoin ls := by
  unfold linesJoin
  rw [List.map_cons, List.flatten_cons]

theorem linesJoin_append (a b : List Str) :
    linesJoin (a ++ b) = linesJoin a ++ linesJoin b := by
  unfold linesJoin
  rw [List.map_append, List.flatten_append]

theorem splitLines_linesJoin (ls : List Str) (h : ∀ l ∈ ls, '\n' ∉ l) :
    splitLines (linesJoin ls) = ls ++ [[]] := by
  induction ls with
  | nil => rfl
  | cons l rest ih =>
    rw [linesJoin_cons, List.append_assoc,
      show (['\n'] : Str) ++ linesJoin rest = '\n' :: linesJoin rest from rfl]
    rw [splitLines_line_append l (linesJoin rest) (h l (List.mem_cons_self l rest))]
    rw [ih fun x hx => h x (List.mem_cons_of_mem l hx)]
    rfl

theorem SafeLines_nil : SafeLines [] := ⟨[], rfl, by simp⟩

theorem SafeLines_append {a b : Str} (ha : SafeLines a) (hb : SafeLines b) :
    SafeLines (a ++ b) := by
  obtain ⟨la, rfl, hla⟩ := ha
  obtain ⟨lb, rfl, hlb⟩ := hb
  refine ⟨la ++ lb, (linesJoin_append la lb).symm, ?_⟩
  intro l hl
  rcases List.mem_append.mp hl with h | h
  · exact hla l h
  · exact hlb l h

theorem SafeLines_line {x : Str} (hn : '\n' ∉ x)
    (hs : startsWith (str "# ") (pystrip x) = false) :
    SafeLines (x ++ str "\n") := by
  refine ⟨[x], ?_, ?_⟩
  · rw [show (str "\n" : Str) = ['\n'] from rfl, linesJoin_cons, linesJoin_nil,
      List.append_nil]
  · intro l hl
    rw [List.mem_singleton] at hl
    subst hl
    exact ⟨hn, hs⟩

theorem SafeLines_flatten {cs : List Str} (h : ∀ c ∈ cs, SafeLines c) :
    SafeLines cs.flatten := by
  induction cs with
  | nil => exact SafeLines_nil
  | cons c rest ih =>
    rw [List.flatten_cons]
    exact SafeLines_append (h c (List.mem_cons_self c rest))
      (ih fun x hx => h x (List.mem_cons_of_mem c hx))

/-- The blockquote validator only ever emits warnings. -/
theorem validate_blockquote_no_error (lines : List Str) :
    ∀ x ∈ validate_blockquote lines, x.level ≠ ValidationLevel.error := by
  intro x hx
  unfold validate_blockquote at hx
  cases hidx : lines.findIdx? (fun l => startsWith (str "# ") (pystrip l)) with
  | none => rw [hidx] at hx; cases hx
  | some h1 =>
    rw [hidx] at hx
    dsimp only at hx
    rw [bqScan_snd_eq_nil, List.nil_append] at hx
    by_cases hf : (bqScan (h1 + 1) ((lines.drop (h1 + 1)).take 4)).1
    · rw [if_pos hf] at hx
      cases hx
    · rw [if_neg hf] at hx
      rw [List.mem_singleton] at hx
      subst hx
      intro hcon2
      cases hcon2

/-- The URL-list validator only ever emits warnings and info notes. -/
theorem validate_url_lists_no_error (lines : List Str) :
    ∀ x ∈ validate_url_lists lines, x.level ≠ ValidationLevel.error := by
  intro x hx
  unfold validate_url_lists at hx
  rw [List.mem_flatten] at hx
  obtain ⟨li, hli, hxl⟩ := hx
  rw [List.mem_map] at hli
  obtain ⟨p, -, rfl⟩ := hli
  dsimp only at hxl
  split at hxl
  · split at hxl
    · cases hxl
    · rcases List.mem_append.mp hxl with h | h
      · split at h
        · rw [List.mem_singleton] at h
          subst h
          intro hcon2
          cases hcon2
        · cases h
      · split at h
        · rw [List.mem_singleton] at h
          subst h
          intro hcon2
          cases hcon2
        · split at h
          · rw [List.mem_singleton] at h
            subst h
            intro hcon2
            cases hcon2
          · cases h
  · cases hxl

/-- The charity template checks only ever emit warnings. -/
theorem validate_charity_sections_no_error (lines : List Str) :
    ∀ x ∈ validate_charity_sections lines, x.level ≠ ValidationLevel.error := by
  intro x hx
  unfold validate_charity_sections at hx
  rcases List.mem_append.mp hx with h | h
  · rcases List.mem_append.mp h with h2 | h2
    · split at h2
      · rw [List.mem_singleton] at h2; subst h2; intro hcon2; cases hcon2
      · cases h2
    · split at h2
      · rw [List.mem_singleton] at h2; subst h2; intro hcon2; cases hcon2
      · cases h2
  · split at h
    · rw [List.mem_singleton] at h; subst h; decide
    · cases h

/-- In the out-of-header state, the sections scan emits no errors on lines
whose stripped form does not start with `"# "`. -/
theorem sectionsScan_false_no_error :
    ∀ (ls : List Str) (i : ℕ),
      (∀ l ∈ ls, startsWith (str "# ") (pystrip l) = false) →
      ∀ x ∈ sectionsScan i false ls, x.level ≠ ValidationLevel.error := by
  intro ls
  induction ls with
  | nil => intro i _ x hx; cases hx
  | cons l rest ih =>
    intro i h x hx
    rw [sectionsScan] at hx
    rw [if_neg (by simp)] at hx
    rcases List.mem_append.mp hx with h1 | h1
    · rcases List.mem_append.mp h1 with h2 | h2
      · split at h2
        · rw [List.mem_singleton] at h2; subst h2; intro hcon2; cases hcon2
        · cases h2
      · rw [h l (List.mem_cons_self l rest)] at h2
        simp at h2
    · exact ih (i + 1) (fun y hy => h y (List.mem_cons_of_mem l hy)) x h1

/-- In the header state, the sections scan emits no errors on lines whose
stripped form does not start with `"# "`. -/
theorem sectionsScan_true_no_error :
    ∀ (ls : List Str) (i : ℕ),
      (∀ l ∈ ls, startsWith (str "# ") (pystrip l) = false) →
      ∀ x ∈ sectionsScan i true ls, x.level ≠ ValidationLevel.error := by
  intro ls
  induction ls with
  | nil => intro i _ x hx; cases hx
  | cons l rest ih =>
    intro i h x hx
    rw [sectionsScan] at hx
    by_cases h2 : startsWith (str "## ") (pystrip l) = true
    · rw [if_neg (by simp [h2])] at hx
      rcases List.mem_append.mp hx with h1 | h1
      · rcases List.mem_append.mp h1 with h3 | h3
        · split at h3
          · rw [List.mem_singleton] at h3; subst h3; intro hcon2; cases hcon2
          · cases h3
        · rw [h l (List.mem_cons_self l rest)] at h3
          simp at h3
      · exact sectionsScan_false_no_error rest (i + 1)
          (fun y hy => h y (List.mem_cons_of_mem l hy)) x h1
    · rw [if_pos (by simp [h2])] at hx
      exact ih (i + 1) (fun y hy => h y (List.mem_cons_of_mem l hy)) x hx

/-- The sections scan on the generated document shape: two header lines
that are not `## ` headings, an arbitrary context line, and a tail of
lines none of which strip-starts with `"# "`, produces no errors. -/
theorem sectionsScan_header_no_error (l0 l1 l2 : Str) (rest : List Str)
    (h0 : startsWith (str "## ") (pystrip l0) = false)
    (h1 : startsWith (str "## ") (pystrip l1) = false)
    (hrest : ∀ l ∈ rest, startsWith (str "# ") (pystrip l) = false) :
    ∀ x ∈ sectionsScan 1 true (l0 :: l1 :: l2 :: rest),
      x.level ≠ ValidationLevel.error := by
  intro x hx
  rw [sectionsScan, if_pos (by simp [h0])] at hx
  rw [sectionsScan, if_pos (by simp [h1])] at hx
  rw [sectionsScan] at hx
  by_cases h2 : startsWith (str "## ") (pystrip l2) = true
  · rw [if_neg (by simp [h2])] at hx
    rcases List.mem_append.mp hx with hm | hm
    · rcases List.mem_append.mp hm with h3 | h3
      · split at h3
        · rw [List.mem_singleton] at h3; subst h3; intro hcon2; cases hcon2
        · cases h3
      · split at h3
        · rename_i hcon
          exact absurd (h1_h2_conflict hcon h2) (fun f => f)
        · cases h3
    · exact sectionsScan_false_no_error rest 4 hrest x hm
  · rw [if_pos (by simp [h2])] at hx
    exact sectionsScan_true_no_error rest 4 hrest x hx

theorem SafeLines_of_witness (c : Str) (ls : List Str)
    (h1 : c = linesJoin ls)
    (h2 : ∀ l ∈ ls, '\n' ∉ l ∧ startsWith (str "# ") (pystrip l) = false) :
    SafeLines c := ⟨ls, h1, h2⟩

theorem pagesOfType_mem {pages : List ExtractedPage} {t : PageType}
    {p : ExtractedPage} (h : p ∈ pagesOfType pages t) : p ∈ pages :=
  List.mem_of_mem_filter h

theorem commaJoin_no_newline {l : List Str} (h : ∀ t ∈ l, '\n' ∉ t) :
    '\n' ∉ commaJoin l := by
  induction l with
  | nil => intro hc; cases hc
  | cons a rest ih =>
    cases rest with
    | nil => exact h a (List.mem_singleton.mpr rfl)
    | cons b tl =>
      rw [show commaJoin (a :: b :: tl) = a ++ str ", " ++ commaJoin (b :: tl)
        from rfl]
      intro hc
      rcases List.mem_append.mp hc with h2 | h2
      · rcases List.mem_append.mp h2 with h3 | h3
        · exact h a (List.mem_cons_self a _) h3
        · exact absurd h3 (by decide)
      · exact ih (fun t ht => h t (List.mem_cons_of_mem a ht)) h2

theorem SafeLines_pageItem (dflt : Str) (p : ExtractedPage)
    (hd : '\n' ∉ dflt) (ht : '\n' ∉ p.title) (hu : '\n' ∉ p.url)
    (hdesc : ∀ d, p.description = some d → '\n' ∉ d) :
    SafeLines (pageItem dflt p) := by
  have hD : '\n' ∉ (match p.description with
      | some d => if d ≠ [] then d else dflt
      | none => dflt) := by
    cases hpd : p.description with
    | none => exact hd
    | some d =>
      dsimp only
      by_cases hne : d = []
      · rw [if_neg (not_not_intro hne)]
        exact hd
      · rw [if_pos hne]
        exact hdesc d hpd
  unfold pageItem
  refine SafeLines_line ?_ (@not_h1_strip_of_head '-' _ (by decide) (by decide))
  intro hm
  rcases List.mem_append.mp hm with h | h
  · rcases List.mem_append.mp h with h | h
    · rcases List.mem_append.mp h with h | h
      · rcases List.mem_append.mp h with h | h
        · rcases List.mem_append.mp h with h | h
          · exact absurd h (by decide)
          · exact ht h
        · exact absurd h (by decide)
      · exact hu h
    · exact absurd h (by decide)
  · exact hD h

theorem line_append_shift (u v : Str) : (u ++ str "\n") ++ v = u ++ '\n' :: v := by
  rw [List.append_assoc]
  rfl

theorem validate_h1_heading_generated (name : Str) (rest : List Str)
    (h : pystrip name ≠ []) :
    validate_h1_heading ((str "# " ++ name) :: rest) = [] := by
  unfold validate_h1_heading
  rw [List.findIdx?_cons, if_pos (by simp [pystrip_h1_line h])]
  dsimp only
  rw [show ((str "# " ++ name) :: rest).getD 0 [] = str "# " ++ name from rfl]
  rw [pystrip_h1_line h]
  rw [startsWith_h1_cons, if_neg (by simp)]
  rw [show ('#' :: ' ' :: rstrip name).drop 2 = rstrip name from rfl]
  rw [if_neg (pystrip_rstrip_ne_nil h)]

theorem generate_charity_eq (a : OrganisationAnalysis)
    (pages : List ExtractedPage) :
    generate_charity_llmstxt a pages =
      (str "# " ++ a.name ++ str "\n") ++ ((str "> " ++ a.mission ++ str "\n") ++
      (((a.org_type ++ (if truthyS a.registration_number then
           str ", registered charity " ++ a.registration_number.getD []
         else [])) ++ str ". " ++ a.description ++ str "\n") ++
      (charityAboutChunks pages ++ charityServicesChunks a pages ++
       charityProjectsChunks a pages ++ charityImpactChunks a pages ++
       charityGetHelpChunks pages ++ charityGetInvolvedChunks pages ++
       charityOptionalChunks pages ++ charityForFundersChunks a ++
       charityForAIChunks a).flatten)) := by
  unfold generate_charity_llmstxt charityHeaderChunks
  simp only [List.flatten_append, List.flatten_cons, List.flatten_nil,
    List.append_assoc, List.append_nil, List.nil_append]

theorem charityAboutChunks_safe (pages : List ExtractedPage)
    (hp : PagesOneLine pages) :
    ∀ c ∈ charityAboutChunks pages, SafeLines c := by
  intro c hc
  unfold charityAboutChunks at hc
  split at hc
  · rcases List.mem_append.mp hc with h | hB
    · rcases List.mem_append.mp h with h | h
      · rcases List.mem_append.mp h with h | h
        · rcases List.mem_append.mp h with hA | h
          · rw [List.mem_singleton] at hA
            subst hA
            exact SafeLines_of_witness _ [str "## About"] (by decide) (by decide)
          · rw [List.mem_map] at h
            obtain ⟨p, hpm, rfl⟩ := h
            obtain ⟨ht, hu, -⟩ := hp p (pagesOfType_mem (List.mem_of_mem_take hpm))
            refine SafeLines_line ?_
              (@not_h1_strip_of_head '-' _ (by decide) (by decide))
            intro hm
            rcases List.mem_append.mp hm with h | h
            · rcases List.mem_append.mp h with h | h
              · rcases List.mem_append.mp h with h | h
                · rcases List.mem_append.mp h with h | h
                  · exact absurd h (by decide)
                  · exact ht h
                · exact absurd h (by decide)
              · exact hu h
            · exact absurd h (by decide)
        · rw [List.mem_map] at h
          obtain ⟨p, hpm, rfl⟩ := h
          obtain ⟨ht, hu, hd⟩ := hp p (pagesOfType_mem hpm)
          exact SafeLines_pageItem _ p (by decide) ht hu hd
      · rw [List.mem_map] at h
        obtain ⟨p, hpm, rfl⟩ := h
        obtain ⟨ht, hu, hd⟩ := hp p (pagesOfType_mem hpm)
        exact SafeLines_pageItem _ p (by decide) ht hu hd
    · rw [List.mem_singleton] at hB
      subst hB
      exact SafeLines_of_witness _ [[]] (by decide) (by decide)
  · cases hc

theorem charityServicesChunks_safe (a : OrganisationAnalysis)
    (pages : List ExtractedPage)
    (ha : ∀ s ∈ a.services, '\n' ∉ s.name ∧ '\n' ∉ s.description)
    (hp : PagesOneLine pages) :
    ∀ c ∈ charityServicesChunks a pages, SafeLines c := by
  intro c hc
  unfold charityServicesChunks at hc
  split at hc
  · rcases List.mem_append.mp hc with h | hB
    · rcases List.mem_append.mp h with hA | hm
      · rw [List.mem_singleton] at hA
        subst hA
        exact SafeLines_of_witness _ [str "## Services"] (by decide) (by decide)
      · split at hm
        · rw [List.mem_map] at hm
          obtain ⟨s, hsm, rfl⟩ := hm
          obtain ⟨hn, hd⟩ := ha s hsm
          cases hf : (pagesOfType pages .services).find? (fun p =>
              containsSub (pylower s.name) (pylower p.title)) with
          | some mp =>
            obtain ⟨-, hu, -⟩ := hp mp (pagesOfType_mem (List.mem_of_find?_eq_some hf))
            dsimp only
            refine SafeLines_line ?_
              (@not_h1_strip_of_head '-' _ (by decide) (by decide))
            intro hmem
            rcases List.mem_append.mp hmem with h | h
            · rcases List.mem_append.mp h with h | h
              · rcases List.mem_append.mp h with h | h
                · rcases List.mem_append.mp h with h | h
                  · rcases List.mem_append.mp h with h | h
                    · exact absurd h (by decide)
                    · exact hn h
                  · exact absurd h (by decide)
                · exact hu h
              · exact absurd h (by decide)
            · exact hd h
          | none =>
            dsimp only
            refine SafeLines_line ?_
              (@not_h1_strip_of_head '-' _ (by decide) (by decide))
            intro hmem
            rcases List.mem_append.mp hmem with h | h
            · rcases List.mem_append.mp h with h | h
              · rcases List.mem_append.mp h with h | h
                · exact absurd h (by decide)
                · exact hn h
              · exact absurd h (by decide)
            · exact hd h
        · rw [List.mem_map] at hm
          obtain ⟨p, hpm, rfl⟩ := hm
          obtain ⟨ht, hu, hd⟩ := hp p (pagesOfType_mem hpm)
          exact SafeLines_pageItem _ p (by decide) ht hu hd
    · rw [List.mem_singleton] at hB
      subst hB
      exact SafeLines_of_witness _ [[]] (by decide) (by decide)
  · cases hc

theorem charityProjectsChunks_safe (a : OrganisationAnalysis)
    (pages : List ExtractedPage)
    (ha : ∀ pr ∈ a.projects, '\n' ∉ pr.name ∧ '\n' ∉ pr.description ∧
      ∀ lo, pr.location = some lo → '\n' ∉ lo)
    (hp : PagesOneLine pages) :
    ∀ c ∈ charityProjectsChunks a pages, SafeLines c := by
  intro c hc
  unfold charityProjectsChunks at hc
  split at hc
  · rcases List.mem_append.mp hc with h | hB
    · rcases List.mem_append.mp h with hA | hm
      · rw [List.mem_singleton] at hA
        subst hA
        exact SafeLines_of_witness _ [str "## Projects"] (by decide) (by decide)
      · split at hm
        · rw [List.mem_map] at hm
          obtain ⟨pr, hpm, rfl⟩ := hm
          obtain ⟨hn, hd, hl⟩ := ha pr hpm
          dsimp only
          refine SafeLines_line ?_
            (@not_h1_strip_of_head '-' _ (by decide) (by decide))
          intro hmem
          rcases List.mem_append.mp hmem with h | h
          · rcases List.mem_append.mp h with h | h
            · rcases List.mem_append.mp h with h | h
              · rcases List.mem_append.mp h with h | h
                · exact absurd h (by decide)
                · exact hn h
              · cases hlo : pr.location with
                | none =>
                  rw [hlo] at h
                  simp at h
                | some loc =>
                  rw [hlo] at h
                  dsimp only at h
                  by_cases hne : loc = []
                  · rw [if_neg (not_not_intro hne)] at h
                    simp at h
                  · rw [if_pos hne] at h
                    rcases List.mem_append.mp h with h2 | h2
                    · rcases List.mem_append.mp h2 with h3 | h3
                      · exact absurd h3 (by decide)
                      · exact hl loc hlo h3
                    · exact absurd h2 (by decide)
            · exact absurd h (by decide)
          · exact hd h
        · rw [List.mem_map] at hm
          obtain ⟨p, hpm, rfl⟩ := hm
          obtain ⟨ht, hu, hd⟩ := hp p (pagesOfType_mem hpm)
          exact SafeLines_pageItem _ p (by decide) ht hu hd
    · rw [List.mem_singleton] at hB
      subst hB
      exact SafeLines_of_witness _ [[]] (by decide) (by decide)
  · cases hc

theorem charityImpactChunks_safe (a : OrganisationAnalysis)
    (pages : List ExtractedPage)
    (ha : ∀ im, a.impact_metrics = some im →
      (∀ b, im.beneficiaries_served = some b → '\n' ∉ b) ∧
      ∀ o ∈ im.outcomes, '\n' ∉ o)
    (hp : PagesOneLine pages) :
    ∀ c ∈ charityImpactChunks a pages, SafeLines c := by
  intro c hc
  unfold charityImpactChunks at hc
  split at hc
  · rcases List.mem_append.mp hc with h | hB
    · rcases List.mem_append.mp h with hA | hm
      · rw [List.mem_singleton] at hA
        subst hA
        exact SafeLines_of_witness _ [str "## Impact"] (by decide) (by decide)
      · cases him : a.impact_metrics with
        | some im =>
          rw [him] at hm
          dsimp only at hm
          obtain ⟨hb, ho⟩ := ha im him
          rcases List.mem_append.mp hm with h2 | h2
          · split at h2
            · rw [List.mem_singleton] at h2
              subst h2
              refine SafeLines_line ?_
                (@not_h1_strip_of_head '-' _ (by decide) (by decide))
              intro hmem
              rcases List.mem_append.mp hmem with h3 | h3
              · exact absurd h3 (by decide)
              · cases hbs : im.beneficiaries_served with
                | none =>
                  rw [hbs] at h3
                  simp at h3
                | some b =>
                  rw [hbs] at h3
                  simp only [Option.getD_some] at h3
                  exact hb b hbs h3
            · cases h2
          · rw [List.mem_map] at h2
            obtain ⟨o, hom, rfl⟩ := h2
            refine SafeLines_line ?_
              (@not_h1_strip_of_head '-' _ (by decide) (by decide))
            intro hmem
            rcases List.mem_append.mp hmem with h3 | h3
            · exact absurd h3 (by decide)
            · exact ho o hom h3
        | none =>
          rw [him] at hm
          dsimp only at hm
          rw [List.mem_map] at hm
          obtain ⟨p, hpm, rfl⟩ := hm
          obtain ⟨ht, hu, hd⟩ := hp p (pagesOfType_mem hpm)
          exact SafeLines_pageItem _ p (by decide) ht hu hd
    · rw [List.mem_singleton] at hB
      subst hB
      exact SafeLines_of_witness _ [[]] (by decide) (by decide)
  · cases hc

theorem charityGetHelpChunks_safe (pages : List ExtractedPage)
    (hp : PagesOneLine pages) :
    ∀ c ∈ charityGetHelpChunks pages, SafeLines c := by
  intro c hc
  unfold charityGetHelpChunks at hc
  split at hc
  · rcases List.mem_append.mp hc with h | hB
    · rcases List.mem_append.mp h with h | h
      · rcases List.mem_append.mp h with hA | h
        · rw [List.mem_singleton] at hA
          subst hA
          exact SafeLines_of_witness _ [str "## Get Help"] (by decide) (by decide)
        · rw [List.mem_map] at h
          obtain ⟨p, hpm, rfl⟩ := h
          obtain ⟨ht, hu, hd⟩ := hp p (pagesOfType_mem hpm)
          exact SafeLines_pageItem _ p (by decide) ht hu hd
      · rw [List.mem_map] at h
        obtain ⟨p, hpm, rfl⟩ := h
        obtain ⟨ht, hu, hd⟩ := hp p (pagesOfType_mem hpm)
        exact SafeLines_pageItem _ p (by decide) ht hu hd
    · rw [List.mem_singleton] at hB
      subst hB
      exact SafeLines_of_witness _ [[]] (by decide) (by decide)
  · cases hc

theorem charityGetInvolvedChunks_safe (pages : List ExtractedPage)
    (hp : PagesOneLine pages) :
    ∀ c ∈ charityGetInvolvedChunks pages, SafeLines c := by
  intro c hc
  unfold charityGetInvolvedChunks at hc
  split at hc
  · rcases List.mem_append.mp hc with h | hB
    · rcases List.mem_append.mp h with h | h
      · rcases List.mem_append.mp h with hA | h
        · rw [List.mem_singleton] at hA
          subst hA
          exact SafeLines_of_witness _ [str "## Get Involved"] (by decide)
            (by decide)
        · rw [List.mem_map] at h
          obtain ⟨p, hpm, rfl⟩ := h
          obtain ⟨ht, hu, hd⟩ := hp p (pagesOfType_mem hpm)
          exact SafeLines_pageItem _ p (by decide) ht hu hd
      · rw [List.mem_map] at h
        obtain ⟨p, hpm, rfl⟩ := h
        obtain ⟨ht, hu, hd⟩ := hp p (pagesOfType_mem hpm)
        exact SafeLines_pageItem _ p (by decide) ht hu hd
    · rw [List.mem_singleton] at hB
      subst hB
      exact SafeLines_of_witness _ [[]] (by decide) (by decide)
  · cases hc

theorem charityOptionalChunks_safe (pages : List ExtractedPage)
    (hp : PagesOneLine pages) :
    ∀ c ∈ charityOptionalChunks pages, SafeLines c := by
  intro c hc
  unfold charityOptionalChunks at hc
  split at hc
  · rcases List.mem_append.mp hc with h | hB
    · rcases List.mem_append.mp h with hA | h
      · rw [List.mem_singleton] at hA
        subst hA
        exact SafeLines_of_witness _ [str "## Optional"] (by decide) (by decide)
      · rw [List.mem_map] at h
        obtain ⟨p, hpm, rfl⟩ := h
        have hpp : p ∈ pages := by
          rcases List.mem_append.mp (List.mem_of_mem_take hpm) with h2 | h2
          · rcases List.mem_append.mp h2 with h3 | h3
            · exact pagesOfType_mem h3
            · exact pagesOfType_mem h3
          · exact pagesOfType_mem h2
        obtain ⟨ht, hu, hd⟩ := hp p hpp
        exact SafeLines_pageItem _ p (by decide) ht hu hd
    · rw [List.mem_singleton] at hB
      subst hB
      exact SafeLines_of_witness _ [[]] (by decide) (by decide)
  · cases hc

theorem charityForFundersChunks_safe (a : OrganisationAnalysis)
    (hreg : ∀ r, a.registration_number = some r → '\n' ∉ r)
    (hgeo : '\n' ∉ a.geographic_area) (hben : '\n' ∉ a.beneficiaries)
    (hth : ∀ t ∈ a.themes, '\n' ∉ t)
    (hcon : ∀ c, a.contact = some c → ∀ e, c.email = some e → '\n' ∉ e) :
    ∀ c ∈ charityForFundersChunks a, SafeLines c := by
  intro c hc
  unfold charityForFundersChunks at hc
  rcases List.mem_append.mp hc with h1 | hNL
  · rcases List.mem_append.mp h1 with h2 | hCon
    · rcases List.mem_append.mp h2 with h3 | hBen
      · rcases List.mem_append.mp h3 with h4 | hTh
        · rcases List.mem_append.mp h4 with h5 | hGeo
          · rcases List.mem_append.mp h5 with hHdr | hReg
            · rw [List.mem_singleton] at hHdr
              subst hHdr
              exact SafeLines_of_witness _ [str "## For Funders"] (by decide)
                (by decide)
            · split at hReg
              · rw [List.mem_singleton] at hReg
                subst hReg
                refine SafeLines_line ?_
                  (@not_h1_strip_of_head '-' _ (by decide) (by decide))
                intro hmem
                rcases List.mem_append.mp hmem with h6 | h6
                · exact absurd h6 (by decide)
                · cases hro : a.registration_number with
                  | none =>
                    rw [hro] at h6
                    simp at h6
                  | some r =>
                    rw [hro] at h6
                    simp only [Option.getD_some] at h6
                    exact hreg r hro h6
              · cases hReg
          · rw [List.mem_singleton] at hGeo
            subst hGeo
            refine SafeLines_line ?_
              (@not_h1_strip_of_head '-' _ (by decide) (by decide))
            intro hmem
            rcases List.mem_append.mp hmem with h6 | h6
            · exact absurd h6 (by decide)
            · exact hgeo h6
        · split at hTh
          · rw [List.mem_singleton] at hTh
            subst hTh
            refine SafeLines_line ?_
              (@not_h1_strip_of_head '-' _ (by decide) (by decide))
            intro hmem
            rcases List.mem_append.mp hmem with h6 | h6
            · exact absurd h6 (by decide)
            · exact commaJoin_no_newline hth h6
          · cases hTh
      · rw [List.mem_singleton] at hBen
        subst hBen
        refine SafeLines_line ?_
          (@not_h1_strip_of_head '-' _ (by decide) (by decide))
        intro hmem
        rcases List.mem_append.mp hmem with h6 | h6
        · exact absurd h6 (by decide)
        · exact hben h6
    · cases hco : a.contact with
      | none =>
        rw [hco] at hCon
        simp at hCon
      | some ci =>
        rw [hco] at hCon
        dsimp only at hCon
        split at hCon
        · rw [List.mem_singleton] at hCon
          subst hCon
          refine SafeLines_line ?_
            (@not_h1_strip_of_head '-' _ (by decide) (by decide))
          intro hmem
          rcases List.mem_append.mp hmem with h6 | h6
          · exact absurd h6 (by decide)
          · cases hem : ci.email with
            | none =>
              rw [hem] at h6
              simp at h6
            | some e =>
              rw [hem] at h6
              simp only [Option.getD_some] at h6
              exact hcon ci hco e hem h6
        · cases hCon
  · rw [List.mem_singleton] at hNL
    subst hNL
    exact SafeLines_of_witness _ [[]] (by decide) (by decide)

theorem charityForAIChunks_safe (a : OrganisationAnalysis)
    (hg : ∀ g ∈ a.ai_guidance, '\n' ∉ g) :
    ∀ c ∈ charityForAIChunks a, SafeLines c := by
  intro c hc
  unfold charityForAIChunks at hc
  rcases List.mem_append.mp hc with h1 | hL
  · rcases List.mem_append.mp h1 with hH | hm
    · rw [List.mem_cons, List.mem_singleton] at hH
      rcases hH with rfl | rfl
      · exact SafeLines_of_witness _ [str "## For AI Systems"] (by decide)
          (by decide)
      · exact SafeLines_of_witness _
          [[], str "When representing this organisation:"] (by decide) (by decide)
    · rw [List.mem_map] at hm
      obtain ⟨g, hgm, rfl⟩ := hm
      refine SafeLines_line ?_
        (@not_h1_strip_of_head '-' _ (by decide) (by decide))
      intro hmem
      rcases List.mem_append.mp hmem with h6 | h6
      · exact absurd h6 (by decide)
      · exact hg g hgm h6
  · rw [List.mem_cons, List.mem_singleton] at hL
    rcases hL with rfl | rfl
    · exact SafeLines_of_witness _
        [str "- Always verify current service availability"] (by decide)
        (by decide)
    · exact SafeLines_of_witness _
        [str "- Direct urgent enquiries to official channels"] (by decide)
        (by decide)

/-- C7: Round trip, corrected.  When every string field the charity
generator renders — from the analysis record *and* from the extracted
pages (title, url, description) — is newline-free, and the organisation
name is non-blank after stripping, validating the generated charity
document under the charity template yields `valid = true` (no ERROR-level
issues).  No further "not beginning with heading markers" condition is
needed; the page-field condition, absent from the claim, is (see the
counterexample). -/
theorem claim7_round_trip (a : OrganisationAnalysis)
    (pages : List ExtractedPage)
    (ha : AnalysisOneLine a) (hp : PagesOneLine pages)
    (hname : pystrip a.name ≠ []) :
    (validate_llmstxt (generate_charity_llmstxt a pages) (str "charity")).valid
      = true := by
  unfold AnalysisOneLine at ha
  obtain ⟨hnm, hot, hmi, hde, hga, hbe, hreg, hsv, hpr, him, hth, hco, hai⟩ := ha
  have hsafe : SafeLines ((charityAboutChunks pages ++
      charityServicesChunks a pages ++ charityProjectsChunks a pages ++
      charityImpactChunks a pages ++ charityGetHelpChunks pages ++
      charityGetInvolvedChunks pages ++ charityOptionalChunks pages ++
      charityForFundersChunks a ++ charityForAIChunks a).flatten) := by
    refine SafeLines_flatten ?_
    intro c hc
    simp only [List.mem_append] at hc
    rcases hc with ((((((((h|h)|h)|h)|h)|h)|h)|h)|h)
    · exact charityAboutChunks_safe pages hp c h
    · exact charityServicesChunks_safe a pages hsv hp c h
    · exact charityProjectsChunks_safe a pages hpr hp c h
    · exact charityImpactChunks_safe a pages him hp c h
    · exact charityGetHelpChunks_safe pages hp c h
    · exact charityGetInvolvedChunks_safe pages hp c h
    · exact charityOptionalChunks_safe pages hp c h
    · exact charityForFundersChunks_safe a hreg hga hbe hth hco c h
    · exact charityForAIChunks_safe a hai c h
  obtain ⟨lsR, hR, hRprop⟩ := hsafe
  have hmem : ∀ l ∈ lsR ++ [[]],
      startsWith (str "# ") (pystrip l) = false := by
    intro l hl
    rcases List.mem_append.mp hl with h | h
    · exact (hRprop l h).2
    · rw [List.mem_singleton] at h
      subst h
      decide
  have h0n : '\n' ∉ str "# " ++ a.name := by
    intro hm2
    rcases List.mem_append.mp hm2 with h | h
    · exact absurd h (by decide)
    · exact hnm h
  have h1n : '\n' ∉ str "> " ++ a.mission := by
    intro hm2
    rcases List.mem_append.mp hm2 with h | h
    · exact absurd h (by decide)
    · exact hmi h
  have h2n : '\n' ∉ (a.org_type ++ (if truthyS a.registration_number then
      str ", registered charity " ++ a.registration_number.getD [] else [])) ++
      str ". " ++ a.description := by
    intro hm2
    rcases List.mem_append.mp hm2 with h | h
    · rcases List.mem_append.mp h with h3 | h3
      · rcases List.mem_append.mp h3 with h4 | h4
        · exact hot h4
        · split at h4
          · rcases List.mem_append.mp h4 with h5 | h5
            · exact absurd h5 (by decide)
            · cases hro : a.registration_number with
              | none =>
                rw [hro] at h5
                simp at h5
              | some r =>
                rw [hro] at h5
                simp only [Option.getD_some] at h5
                exact hreg r hro h5
          · cases h4
      · exact absurd h3 (by decide)
    · exact hde h
  have hlines : splitLines (generate_charity_llmstxt a pages) =
      (str "# " ++ a.name) :: (str "> " ++ a.mission) ::
      ((a.org_type ++ (if truthyS a.registration_number then
          str ", registered charity " ++ a.registration_number.getD []
        else [])) ++ str ". " ++ a.description) :: (lsR ++ [[]]) := by
    rw [generate_charity_eq, hR]
    rw [line_append_shift (str "# " ++ a.name)]
    rw [splitLines_line_append _ _ h0n]
    rw [line_append_shift (str "> " ++ a.mission)]
    rw [splitLines_line_append _ _ h1n]
    rw [line_append_shift ((a.org_type ++ (if truthyS a.registration_number then
        str ", registered charity " ++ a.registration_number.getD []
      else [])) ++ str ". " ++ a.description)]
    rw [splitLines_line_append _ _ h2n]
    rw [splitLines_linesJoin lsR (fun l hl => (hRprop l hl).1)]
  have hps0 : pystrip (str "# " ++ a.name) = '#' :: ' ' :: rstrip a.name :=
    pystrip_h1_line hname
  unfold validate_llmstxt
  dsimp only
  rw [hlines]
  rw [validate_h1_heading_generated a.name _ hname, List.nil_append]
  rw [Bool.not_eq_true', List.any_eq_false]
  intro x hx
  simp only [decide_eq_true_eq]
  rcases List.mem_append.mp hx with h | h
  · rcases List.mem_append.mp h with h2 | h2
    · rcases List.mem_append.mp h2 with h3 | h3
      · exact validate_blockquote_no_error _ x h3
      · exact sectionsScan_header_no_error _ _ _ _
          (by rw [hps0]; exact not_h2_of_hash_space _)
          (@not_h2_strip_of_head '>' _ (by decide) (by decide))
          hmem x h3
    · exact validate_url_lists_no_error _ x h2
  · rw [if_pos rfl] at h
    exact validate_charity_sections_no_error _ x h

/-- C7, counterexample to the claim as stated: the claim constrains only
the analysis fields, but the generator also renders page titles, urls and
descriptions verbatim.  An analysis meeting every stated field condition
(non-empty, single-line, no leading heading markers) together with a
single about-page whose description embeds a newline followed by an H1
marker produces a document with a second H1 line, so validation fails. -/
theorem claim7_counterexample :
    (validate_llmstxt
      (generate_charity_llmstxt
        ⟨str "Helping Hands", str "Registered charity", none,
         str "We help people", str "A community charity", str "UK", [], [],
         none, str "People in need", [], none, none, []⟩
        [⟨str "https://example.org/about", str "About",
          some (str "Our story\n# Evil"), .about⟩])
      (str "charity")).valid = false := by
  decide

/-- Witness for `claim7_round_trip` at a concrete minimal analysis with no
pages. -/
theorem claim7_witness :
    (validate_llmstxt
      (generate_charity_llmstxt
        ⟨str "Helping Hands", str "Registered charity", none,
         str "We help people", str "A community charity", str "UK", [], [],
         none, str "People in need", [], none, none, []⟩ [])
      (str "charity")).valid = true :=
  claim7_round_trip _ _
    (by
      unfold AnalysisOneLine
      refine ⟨by decide, by decide, by decide, by decide, by decide, by decide,
        ?_, ?_, ?_, ?_, ?_, ?_, ?_⟩
      · intro r hr
        exact Option.noConfusion hr
      · intro s hs
        exact absurd hs (List.not_mem_nil s)
      · intro pr hpr
        exact absurd hpr (List.not_mem_nil pr)
      · intro im him
        exact Option.noConfusion him
      · intro t ht
        exact absurd ht (List.not_mem_nil t)
      · intro c hc
        exact Option.noConfusion hc
      · intro g hg
        exact absurd hg (List.not_mem_nil g))
    (by
      intro p hp2
      exact absurd hp2 (List.not_mem_nil p))
    (by decide)

end LlmsTxt
